import Mathlib

/-! # nRF24L01 driver (`stm8l051-cdcspd-sensor/nRF24.c`): embedding and properties

The driver talks to the radio chip through four pieces of hardware: the SPI
data register (one byte out, one byte in), the chip-select output pin (CSN),
the chip-enable output pin (CE) and the interrupt input pin (IRQ).  The
hardware is a parameter of the embedding (`Port`), so that every property of
the command framing holds for every possible chip behaviour; a concrete
simulated chip (`simPort`) is used for the properties that talk about register
contents.  Bytes are natural numbers, reduced modulo 256 wherever the C code
stores them in a `uint8_t`.
-/

namespace NRF24

/-! ## Hardware interface and run state -/

/-- One observable action of the driver on its pins and bus, in program order. -/
inductive Ev where
  | csn (high : Bool)
  | ce (high : Bool)
  | spi (out inp : Nat)
  | irq (high : Bool)
  deriving DecidableEq, Repr

/-- The hardware seen by the driver, over a device state `σ`: what the device
does when the chip-select pin is driven, when the chip-enable pin is driven,
when one byte is exchanged on the bus, and when the interrupt pin is read. -/
structure Port (σ : Type) where
  csn : Bool → σ → σ
  ce : Bool → σ → σ
  spi : Nat → σ → Nat × σ
  irq : σ → Bool × σ

/-- State of a run: the device, the two output pin latches (`true` is high)
and the actions performed so far, oldest first. -/
structure Run (σ : Type) where
  dev : σ
  csn : Bool
  ce : Bool
  trace : List Ev

variable {σ : Type}

/-- Modelled from the spec: macro `CSN_L()` of the header `nRF24.h`, which is
not among the sources; it drives the chip-select line low (active). -/
def CSN_L (p : Port σ) (r : Run σ) : Run σ :=
  { r with dev := p.csn false r.dev, csn := false, trace := r.trace ++ [Ev.csn false] }

/-- Modelled from the spec: macro `CSN_H()` of the header `nRF24.h`, which is
not among the sources; it drives the chip-select line high (inactive). -/
def CSN_H (p : Port σ) (r : Run σ) : Run σ :=
  { r with dev := p.csn true r.dev, csn := true, trace := r.trace ++ [Ev.csn true] }

/-- Modelled from the spec: macro `CE_L()` of the header `nRF24.h`, which is
not among the sources; it drives the chip-enable line low. -/
def CE_L (p : Port σ) (r : Run σ) : Run σ :=
  { r with dev := p.ce false r.dev, ce := false, trace := r.trace ++ [Ev.ce false] }

/-- Modelled from the spec: macro `CE_H()` of the header `nRF24.h`, which is
not among the sources; it drives the chip-enable line high. -/
def CE_H (p : Port σ) (r : Run σ) : Run σ :=
  { r with dev := p.ce true r.dev, ce := true, trace := r.trace ++ [Ev.ce true] }

/-! ## Constants of the absent header `nRF24.h` -/

/-- Modelled from the spec: write-register opcode of `nRF24.h` (absent); the
spec says it is OR-ed with a 5-bit register address, the value is the chip's
`W_REGISTER` command word `001A AAAA`. -/
def nRF24_CMD_WREG : Nat := 0x20

/-- Modelled from the spec: write-TX-payload opcode of `nRF24.h` (absent), a
fixed single-byte command (the chip's `W_TX_PAYLOAD`). -/
def nRF24_CMD_W_TX_PAYLOAD : Nat := 0xA0

/-- Modelled from the spec: flush-TX opcode of `nRF24.h` (absent), a fixed
single-byte command (the chip's `FLUSH_TX`). -/
def nRF24_CMD_FLUSH_TX : Nat := 0xE1

/-- Modelled from the spec: address of the CONFIG register (`nRF24.h` absent). -/
def nRF24_REG_CONFIG : Nat := 0x00

/-- Modelled from the spec: address of the EN_AA register (`nRF24.h` absent). -/
def nRF24_REG_EN_AA : Nat := 0x01

/-- Modelled from the spec: address of the SETUP_RETR register (`nRF24.h` absent). -/
def nRF24_REG_SETUP_RETR : Nat := 0x04

/-- Modelled from the spec: address of the RF_CH register (`nRF24.h` absent). -/
def nRF24_REG_RF_CH : Nat := 0x05

/-- Modelled from the spec: address of the RF_SETUP register (`nRF24.h` absent). -/
def nRF24_REG_RF_SETUP : Nat := 0x06

/-- Modelled from the spec: address of the STATUS register (`nRF24.h` absent). -/
def nRF24_REG_STATUS : Nat := 0x07

/-- Modelled from the spec: address of the pipe-0 RX-address register
(`nRF24.h` absent). -/
def nRF24_REG_RX_ADDR_P0 : Nat := 0x0A

/-- Modelled from the spec: address of the TX-address register (`nRF24.h` absent). -/
def nRF24_REG_TX_ADDR : Nat := 0x10

/-- Modelled from the spec: mask of the MAX_RT flag of STATUS (`nRF24.h`
absent); the spec places MAX_RT at bit 4. -/
def nRF24_MASK_MAX_RT : Nat := 0x10

/-- Modelled from the spec: mask of the TX_DS flag of STATUS (`nRF24.h`
absent); the spec places TX_DS at bit 5. -/
def nRF24_MASK_TX_DS : Nat := 0x20

/-- Modelled from the spec: transmitter-role value OR-ed into CONFIG
(`nRF24.h` absent); PRIM_RX = 0. -/
def nRF24_PRIM_TX : Nat := 0x00

/-! ## Command framer (lines 75-149) -/

/-- `nRF24_ReadWrite` (lines 79-84): one blocking byte exchange.  The two
waits on the SPI flags belong to the byte transport itself, which is the
`spi` field of the port; the argument and the result are `uint8_t`. -/
def nRF24_ReadWrite (p : Port σ) (data : Nat) (r : Run σ) : Nat × Run σ :=
  let x := p.spi (data % 256) r.dev
  (x.1 % 256, { r with dev := x.2, trace := r.trace ++ [Ev.spi (data % 256) (x.1 % 256)] })

/-- `nRF24_RWReg` (lines 91-100). -/
def nRF24_RWReg (p : Port σ) (reg value : Nat) (r : Run σ) : Nat × Run σ :=
  let r1 := CSN_L p r
  let a := nRF24_ReadWrite p reg r1
  let status := a.1
  let b := nRF24_ReadWrite p value a.2
  let r2 := CSN_H p b.2
  (status, r2)

/-- `nRF24_ReadReg` (lines 106-115). -/
def nRF24_ReadReg (p : Port σ) (reg : Nat) (r : Run σ) : Nat × Run σ :=
  let r1 := CSN_L p r
  let a := nRF24_ReadWrite p reg r1
  let b := nRF24_ReadWrite p 0 a.2
  let value := b.1
  let r2 := CSN_H p b.2
  (value, r2)

/-- The loop of `nRF24_ReadBuf` (line 128),
`for (i = 0; i < count; i++) pBuf[i] = nRF24_ReadWrite(0);`
with `k` the number of iterations still to run (`count - i`); `i < count ≤ 255`
so the `uint8_t` counter never wraps.  The buffer is the memory behind the
pointer, indexed from it. -/
def ReadBuf_loop (p : Port σ) : Nat → Nat → (Nat → Nat) → Run σ → (Nat → Nat) × Run σ
  | 0, _, pBuf, r => (pBuf, r)
  | k + 1, i, pBuf, r =>
    let a := nRF24_ReadWrite p 0 r
    ReadBuf_loop p k (i + 1) (Function.update pBuf i a.1) a.2

/-- Result of `nRF24_ReadBuf`: returned status, the memory behind `pBuf`
afterwards, and the run state. -/
structure ReadBufResult (σ : Type) where
  status : Nat
  buf : Nat → Nat
  run : Run σ

/-- `nRF24_ReadBuf` (lines 123-132).  Both pin writes are `CSN_L()`, as in the
source (lines 126 and 129). -/
def nRF24_ReadBuf (p : Port σ) (reg : Nat) (pBuf : Nat → Nat) (count : Nat) (r : Run σ) :
    ReadBufResult σ :=
  let r1 := CSN_L p r
  let a := nRF24_ReadWrite p reg r1
  let status := a.1
  let l := ReadBuf_loop p (count % 256) 0 pBuf a.2
  let r2 := CSN_L p l.2
  { status := status, buf := l.1, run := r2 }

/-- The loop of `nRF24_WriteBuf` (line 145),
`for (i = 0; i < count; i++) nRF24_ReadWrite(*pBuf++);`
with `k` the number of iterations still to run and `i` the number of bytes
already consumed from the buffer. -/
def WriteBuf_loop (p : Port σ) : Nat → Nat → (Nat → Nat) → Run σ → Run σ
  | 0, _, _, r => r
  | k + 1, i, pBuf, r =>
    let a := nRF24_ReadWrite p (pBuf i) r
    WriteBuf_loop p k (i + 1) pBuf a.2

/-- `nRF24_WriteBuf` (lines 140-149). -/
def nRF24_WriteBuf (p : Port σ) (reg : Nat) (pBuf : Nat → Nat) (count : Nat) (r : Run σ) :
    Nat × Run σ :=
  let r1 := CSN_L p r
  let a := nRF24_ReadWrite p reg r1
  let status := a.1
  let r2 := WriteBuf_loop p (count % 256) 0 pBuf a.2
  let r3 := CSN_H p r2
  (status, r3)

/-! ## Presence check (lines 151-165) -/

/-- Local array `txbuf` of `nRF24_Check` (line 156), `{ 'n','R','F','2','4' }`
as character codes, indexed as memory. -/
def Check_txbuf : Nat → Nat := fun i => [110, 82, 70, 50, 52].getD i 0

/-- The comparison loop of `nRF24_Check` (line 162),
`for (i = 0; i < 5; i++) if (rxbuf[i] != txbuf[i]) return 0;`
with `k` the iterations still to run; `some 0` is the early return, `none`
means the loop ran to its end. -/
def Check_loop (rxbuf txbuf : Nat → Nat) : Nat → Nat → Option Nat
  | 0, _ => none
  | k + 1, i => if rxbuf i ≠ txbuf i then some 0 else Check_loop rxbuf txbuf k (i + 1)

/-- `nRF24_Check` (lines 155-165).  `rxbuf` is the content of the
uninitialised local array when the function is entered; the value is the 0
of the early return of the loop, or the 1 of line 164 when the loop ends. -/
def nRF24_Check (p : Port σ) (rxbuf : Nat → Nat) (r : Run σ) : Nat × Run σ :=
  let w := nRF24_WriteBuf p (nRF24_CMD_WREG ||| nRF24_REG_TX_ADDR) Check_txbuf 5 r
  let rd := nRF24_ReadBuf p nRF24_REG_TX_ADDR rxbuf 5 w.2
  ((Check_loop rd.buf Check_txbuf 5 0).getD 1, rd.run)

/-! ## Mode configurator (lines 167-199) -/

/-- `nRF24_SetRFChannel` (lines 171-173). -/
def nRF24_SetRFChannel (p : Port σ) (RFChannel : Nat) (r : Run σ) : Run σ :=
  (nRF24_RWReg p (nRF24_CMD_WREG ||| nRF24_REG_RF_CH) RFChannel r).2

/-- The byte written to SETUP_RETR by `nRF24_TXMode` (line 192),
`((RetrDelay << 4) & 0xf0) | (RetrCnt & 0x0f)` on `uint8_t` arguments. -/
def TXMode_retr (RetrCnt RetrDelay : Nat) : Nat :=
  ((((RetrDelay % 256) <<< 4) &&& 0xf0) ||| ((RetrCnt % 256) &&& 0x0f))

/-- `nRF24_TXMode` (lines 188-199).  The enumeration arguments are cast to
`uint8_t` by the code and are bytes here. -/
def nRF24_TXMode (p : Port σ) (RetrCnt RetrDelay RFChan DataRate TXPower CRC CRCO PWR : Nat)
    (TX_Addr : Nat → Nat) (TX_Addr_Width : Nat) (r : Run σ) : Run σ :=
  let r0 := CE_L p r
  let r1 := (nRF24_RWReg p (nRF24_CMD_WREG ||| nRF24_REG_SETUP_RETR)
    (TXMode_retr RetrCnt RetrDelay) r0).2
  let r2 := (nRF24_RWReg p (nRF24_CMD_WREG ||| nRF24_REG_RF_SETUP)
    ((DataRate % 256) ||| (TXPower % 256)) r1).2
  let r3 := (nRF24_RWReg p (nRF24_CMD_WREG ||| nRF24_REG_CONFIG)
    ((CRC % 256) ||| (CRCO % 256) ||| (PWR % 256) ||| nRF24_PRIM_TX) r2).2
  let r4 := nRF24_SetRFChannel p RFChan r3
  let r5 := (nRF24_WriteBuf p (nRF24_CMD_WREG ||| nRF24_REG_TX_ADDR) TX_Addr TX_Addr_Width r4).2
  let r6 := (nRF24_RWReg p (nRF24_CMD_WREG ||| nRF24_REG_EN_AA) 0x01 r5).2
  (nRF24_WriteBuf p (nRF24_CMD_WREG ||| nRF24_REG_RX_ADDR_P0) TX_Addr TX_Addr_Width r6).2

/-! ## Transmit state machine (lines 201-232) -/

/-- One read of the interrupt pin `PC_IDR_bit.IDR0` (line 215); `true` is a
high pin, that is, no interrupt. -/
def readIRQ (p : Port σ) (r : Run σ) : Bool × Run σ :=
  let x := p.irq r.dev
  (x.1, { r with dev := x.2, trace := r.trace ++ [Ev.irq x.1] })

/-- The wait loop of `nRF24_TXPacket` (line 215), `while(PC_IDR_bit.IDR0);`.
The loop has no bound in the source; `fuel` bounds the number of reads of the
pin in the model and `none` means the fuel ran out with the pin still high. -/
def waitIRQ (p : Port σ) : Nat → Run σ → Option (Run σ)
  | 0, _ => none
  | fuel + 1, r =>
    let x := readIRQ p r
    if x.1 then waitIRQ p fuel x.2 else some x.2

/-- Lines 211-213 of `nRF24_TXPacket`: chip-enable low, payload written to the
FIFO, chip-enable high. -/
def TXPacket_arm (p : Port σ) (pBuf : Nat → Nat) (TX_PAYLOAD : Nat) (r : Run σ) : Run σ :=
  let r1 := CE_L p r
  let w := nRF24_WriteBuf p nRF24_CMD_W_TX_PAYLOAD pBuf TX_PAYLOAD r1
  CE_H p w.2

/-- Lines 216-231 of `nRF24_TXPacket`: everything after the wait loop. -/
def TXPacket_finish (p : Port σ) (r : Run σ) : Nat × Run σ :=
  let r1 := CE_L p r
  let a := nRF24_ReadReg p nRF24_REG_STATUS r1
  let status := a.1
  let b := nRF24_RWReg p (nRF24_CMD_WREG ||| nRF24_REG_STATUS) status a.2
  if status &&& nRF24_MASK_MAX_RT ≠ 0 then
    let c := nRF24_RWReg p nRF24_CMD_FLUSH_TX 0xFF b.2
    (nRF24_MASK_MAX_RT, c.2)
  else if status &&& nRF24_MASK_TX_DS ≠ 0 then
    let c := nRF24_RWReg p nRF24_CMD_FLUSH_TX 0xFF b.2
    (nRF24_MASK_TX_DS, c.2)
  else
    (status, b.2)

/-- `nRF24_TXPacket` (lines 208-232); `none` when the wait loop is still
running after `fuel` reads of the interrupt pin. -/
def nRF24_TXPacket (p : Port σ) (fuel : Nat) (pBuf : Nat → Nat) (TX_PAYLOAD : Nat)
    (r : Run σ) : Option (Nat × Run σ) :=
  match waitIRQ p fuel (TXPacket_arm p pBuf TX_PAYLOAD r) with
  | none => none
  | some r1 => some (TXPacket_finish p r1)

/-! ## Power controller and TX power (lines 234-262) -/

/-- `nRF24_PowerDown` (lines 235-242); `conf &= ~(1<<1)` on a `uint8_t`. -/
def nRF24_PowerDown (p : Port σ) (r : Run σ) : Run σ :=
  let r1 := CE_L p r
  let a := nRF24_ReadReg p nRF24_REG_CONFIG r1
  let conf := a.1 &&& 0xFD
  (nRF24_RWReg p (nRF24_CMD_WREG ||| nRF24_REG_CONFIG) conf a.2).2

/-- `nRF24_Wake` (lines 245-251). -/
def nRF24_Wake (p : Port σ) (r : Run σ) : Run σ :=
  let a := nRF24_ReadReg p nRF24_REG_CONFIG r
  let conf := a.1 ||| (1 <<< 1)
  (nRF24_RWReg p (nRF24_CMD_WREG ||| nRF24_REG_CONFIG) conf a.2).2

/-- `nRF24_SetTXPower` (lines 256-262); the enumeration argument is cast to
`uint8_t`. -/
def nRF24_SetTXPower (p : Port σ) (TXPower : Nat) (r : Run σ) : Run σ :=
  let a := nRF24_ReadReg p nRF24_REG_RF_SETUP r
  let rf_setup := a.1 &&& 0xf9
  (nRF24_RWReg p (nRF24_CMD_WREG ||| nRF24_REG_RF_SETUP) (rf_setup ||| (TXPower % 256)) a.2).2

/-! ## Observations on traces -/

/-- The bytes sent on the bus, in order. -/
def spiOut : List Ev → List Nat
  | [] => []
  | Ev.spi o _ :: t => o :: spiOut t
  | _ :: t => spiOut t

/-- The bytes received from the bus, in order. -/
def spiIn : List Ev → List Nat
  | [] => []
  | Ev.spi _ i :: t => i :: spiIn t
  | _ :: t => spiIn t

/-- Whether every byte exchange of the trace happens while chip-select is
low, the line being at level `lvl` (`true` is high) when the trace starts. -/
def spiSelected : Bool → List Ev → Bool
  | _, [] => true
  | _, Ev.csn h :: t => spiSelected h t
  | lvl, Ev.spi _ _ :: t => !lvl && spiSelected lvl t
  | lvl, _ :: t => spiSelected lvl t

/-- Level of the chip-select line after the trace, from level `lvl`. -/
def csnAfter : Bool → List Ev → Bool
  | lvl, [] => lvl
  | _, Ev.csn h :: t => csnAfter h t
  | lvl, _ :: t => csnAfter lvl t

/-! ## Simulated chip -/

/-- Modelled from the spec: the simulated chip of the spec's testable
properties (no simulator is among the sources).  It stores register writes
(`regs a i` is byte `i` of the register at address `a`), answers the command
byte of every transaction with its STATUS register, holds the bytes loaded in
its TX FIFO, and, while chip-enable is high, completes the transmit attempt
after `latency` reads of the interrupt pin by raising `outcome` into STATUS
and pulling the interrupt line low.  With `w1c` set, a write to STATUS clears
the flag bits 4..6 that are written as one instead of storing the byte. -/
structure Chip where
  regs : Nat → Nat → Nat
  txFifo : List Nat
  csn : Bool
  ce : Bool
  cmd : Option Nat
  idx : Nat
  w1c : Bool
  latency : Nat
  outcome : Nat

/-- Modelled from the spec: a register write on the simulated chip, byte `i`
of register `a` receiving `v`. -/
def Chip.write (c : Chip) (a i v : Nat) : Nat → Nat → Nat :=
  fun a1 i1 =>
    if a1 = a ∧ i1 = i then
      (if c.w1c ∧ a = nRF24_REG_STATUS ∧ i = 0 then c.regs a i &&& (0xFF ^^^ (v &&& 0x70)) else v)
    else c.regs a1 i1

/-- Modelled from the spec: one byte exchange with the simulated chip.  The
first byte after chip-select falls is the command and is answered with
STATUS; flush-TX empties the FIFO at once; the following bytes are data of
the command: stored for a write-register command (`001A AAAA`), answered with
the register content for a read-register command (`000A AAAA`), appended to
the FIFO for write-TX-payload, ignored otherwise.  A chip that is not
selected ignores the bus. -/
def Chip.spi (out : Nat) (c : Chip) : Nat × Chip :=
  if c.csn then (0, c)
  else
    match c.cmd with
    | none =>
      (c.regs nRF24_REG_STATUS 0,
        { c with cmd := some out, idx := 0,
                 txFifo := if out = nRF24_CMD_FLUSH_TX then [] else c.txFifo })
    | some k =>
      if k / 32 = 1 then
        (0, { c with regs := c.write (k % 32) c.idx out, idx := c.idx + 1 })
      else if k / 32 = 0 then
        (c.regs (k % 32) c.idx, { c with idx := c.idx + 1 })
      else if k = nRF24_CMD_W_TX_PAYLOAD then
        (0, { c with txFifo := c.txFifo ++ [out], idx := c.idx + 1 })
      else (0, { c with idx := c.idx + 1 })

/-- Modelled from the spec: one read of the interrupt pin of the simulated
chip (`true` is high, no interrupt). -/
def Chip.irq (c : Chip) : Bool × Chip :=
  if c.ce then
    if c.latency = 0 then
      (false, { c with regs := fun a i =>
        if a = nRF24_REG_STATUS ∧ i = 0 then c.regs a i ||| c.outcome else c.regs a i })
    else (true, { c with latency := c.latency - 1 })
  else (true, c)

/-- Modelled from the spec: the simulated chip as the hardware of the driver;
every edge of chip-select starts a fresh transaction, driving the line to
the level it already has changes nothing. -/
def simPort : Port Chip where
  csn := fun h c => if c.csn = h then c else { c with csn := h, cmd := none, idx := 0 }
  ce := fun h c => { c with ce := h }
  spi := Chip.spi
  irq := Chip.irq

/-- A simulated chip with all registers zero, an empty FIFO, both lines
idle, that stores STATUS writes when `w1c` is false. -/
def Chip.reset (w1c : Bool) (latency outcome : Nat) : Chip where
  regs := fun _ _ => 0
  txFifo := []
  csn := true
  ce := false
  cmd := none
  idx := 0
  w1c := w1c
  latency := latency
  outcome := outcome

/-- A run that starts on device `d` with chip-select high, chip-enable low
and an empty trace (the state left by `nRF24_init`, lines 71-72). -/
def Run.init (d : σ) : Run σ := { dev := d, csn := true, ce := false, trace := [] }

/-- A payload used in the examples: cell `i` holds `i + 1`. -/
def demoPayload : Nat → Nat := fun i => i + 1

/-- The run of the examples after lines 211-215 of `nRF24_TXPacket` on a
simulated chip that completes after `latency` reads of the interrupt pin
with `outcome` raised into STATUS: three payload bytes loaded, chip-enable
raised, and the wait loop left (or the armed state itself when five reads of
the pin do not suffice). -/
def demoAfterWait (w1c : Bool) (latency outcome : Nat) : Run Chip :=
  (waitIRQ simPort 5
    (TXPacket_arm simPort demoPayload 3 (Run.init (Chip.reset w1c latency outcome)))).getD
    (TXPacket_arm simPort demoPayload 3 (Run.init (Chip.reset w1c latency outcome)))

/-- The actions of one transaction bracketed by chip-select: the line driven
low, the exchange of the command byte `cmd` (answered by `st`), the exchanges
of the data bytes `outs` (answered by `ins`), the line driven high. -/
def txn (cmd st : Nat) (outs ins : List Nat) : List Ev :=
  Ev.csn false :: Ev.spi cmd st :: (List.zipWith Ev.spi outs ins ++ [Ev.csn true])

/-- The first `count` bytes of the memory behind a pointer, as the bytes put
on the bus (`count` is a `uint8_t`). -/
def bufBytes (pBuf : Nat → Nat) (count : Nat) : List Nat :=
  (List.range (count % 256)).map (fun j => pBuf j % 256)

/-- Modelled from the spec: the simulated chip with its interrupt line stuck
high, "a simulated chip whose interrupt line never asserts". -/
def stuckPort : Port Chip :=
  { simPort with irq := fun c => (true, c) }

/-- The simulated chip of the examples after `nRF24_init` and one call of
`nRF24_TXMode` (5 retransmissions, delay 3, channel 40, CONFIG 0x0E,
RF_SETUP 0x0E, address 1,2,3,4,5): chip-select is high. -/
def demoConfigured : Run Chip :=
  nRF24_TXMode simPort 5 3 40 0x08 0x06 0x08 0x04 0x02 demoPayload 5
    (Run.init (Chip.reset false 0 0))

/-- The configured chip of the examples after one further call of
`nRF24_Check`: its last operation is `nRF24_ReadBuf`, so chip-select is
low and the read of the TX-address register is still open. -/
def demoSelected : Run Chip := (nRF24_Check simPort (fun _ => 0) demoConfigured).2

/-- The configured chip of the examples after its TX address has been read
back with `nRF24_ReadBuf`: chip-select is low. -/
def demoAfterRead : Run Chip :=
  (nRF24_ReadBuf simPort nRF24_REG_TX_ADDR (fun _ => 0) 5 demoConfigured).run

/-! ## Basic facts about the framing primitives -/

@[simp] theorem CSN_L_trace (p : Port σ) (r : Run σ) :
    (CSN_L p r).trace = r.trace ++ [Ev.csn false] := rfl

@[simp] theorem CSN_H_trace (p : Port σ) (r : Run σ) :
    (CSN_H p r).trace = r.trace ++ [Ev.csn true] := rfl

@[simp] theorem CE_L_trace (p : Port σ) (r : Run σ) :
    (CE_L p r).trace = r.trace ++ [Ev.ce false] := rfl

@[simp] theorem CE_H_trace (p : Port σ) (r : Run σ) :
    (CE_H p r).trace = r.trace ++ [Ev.ce true] := rfl

@[simp] theorem ReadWrite_trace (p : Port σ) (d : Nat) (r : Run σ) :
    (nRF24_ReadWrite p d r).2.trace
      = r.trace ++ [Ev.spi (d % 256) (nRF24_ReadWrite p d r).1] := rfl

@[simp] theorem ReadWrite_csn (p : Port σ) (d : Nat) (r : Run σ) :
    (nRF24_ReadWrite p d r).2.csn = r.csn := rfl

theorem ReadWrite_lt (p : Port σ) (d : Nat) (r : Run σ) :
    (nRF24_ReadWrite p d r).1 < 256 := Nat.mod_lt _ (by decide)

/-- The read loop run for `k` iterations from index `i`: it performs `k`
exchanges, each sending 0, and stores the received bytes `bs` in cells
`i .. i+k-1`, leaving every other cell and the chip-select latch alone. -/
theorem ReadBuf_loop_spec (p : Port σ) :
    ∀ (k i : Nat) (pBuf : Nat → Nat) (r : Run σ),
      ∃ bs : List Nat, bs.length = k ∧
        (ReadBuf_loop p k i pBuf r).2.trace = r.trace ++ bs.map (Ev.spi 0) ∧
        (ReadBuf_loop p k i pBuf r).2.csn = r.csn ∧
        (∀ j, j < k → (ReadBuf_loop p k i pBuf r).1 (i + j) = bs.getD j 0) ∧
        (∀ j, (j < i ∨ i + k ≤ j) → (ReadBuf_loop p k i pBuf r).1 j = pBuf j) := by
  intro k
  induction k with
  | zero =>
    intro i pBuf r
    exact ⟨[], rfl, by simp [ReadBuf_loop], rfl, by simp, by simp [ReadBuf_loop]⟩
  | succ k ih =>
    intro i pBuf r
    obtain ⟨bs, hlen, htr, hcsn, hin, hout⟩ :=
      ih (i + 1) (Function.update pBuf i (nRF24_ReadWrite p 0 r).1) (nRF24_ReadWrite p 0 r).2
    refine ⟨(nRF24_ReadWrite p 0 r).1 :: bs, by simp [hlen], ?_, ?_, ?_, ?_⟩
    · simp [ReadBuf_loop, htr]
    · simp [ReadBuf_loop, hcsn]
    · intro j hj
      cases j with
      | zero =>
        have h := hout i (Or.inl (Nat.lt_succ_self i))
        simpa [ReadBuf_loop] using h
      | succ j =>
        have h := hin j (by omega)
        have e : i + (j + 1) = i + 1 + j := by omega
        simpa [ReadBuf_loop, e] using h
    · intro j hj
      have h := hout j (by omega)
      have hne : j ≠ i := by omega
      simpa [ReadBuf_loop, Function.update_noteq hne] using h

/-- The write loop run for `k` iterations from index `i`: it performs `k`
exchanges sending cells `i .. i+k-1` of the buffer in order, and leaves the
chip-select latch alone. -/
theorem WriteBuf_loop_spec (p : Port σ) (pBuf : Nat → Nat) :
    ∀ (k i : Nat) (r : Run σ),
      ∃ ins : List Nat, ins.length = k ∧
        (WriteBuf_loop p k i pBuf r).trace
          = r.trace ++ List.zipWith Ev.spi ((List.range k).map (fun j => pBuf (i + j) % 256)) ins ∧
        (WriteBuf_loop p k i pBuf r).csn = r.csn := by
  intro k
  induction k with
  | zero =>
    intro i r
    exact ⟨[], rfl, by simp [WriteBuf_loop], rfl⟩
  | succ k ih =>
    intro i r
    obtain ⟨ins, hlen, htr, hcsn⟩ := ih (i + 1) (nRF24_ReadWrite p (pBuf i) r).2
    refine ⟨(nRF24_ReadWrite p (pBuf i) r).1 :: ins, by simp [hlen], ?_, ?_⟩
    · have e : ∀ j, i + 1 + j = i + (j + 1) := by intro j; omega
      simp [WriteBuf_loop, htr, List.range_succ_eq_map, e, Function.comp_def]
    · simp [WriteBuf_loop, hcsn]

/-- The first `count` cells of a list of bytes seen as memory are its first
`count` elements. -/
theorem take_as_memory (buf : List Nat) (hb : ∀ b ∈ buf, b < 256) :
    ∀ count, count ≤ buf.length →
      (List.range count).map (fun j => buf.getD (0 + j) 0 % 256) = buf.take count := by
  intro count hc
  apply List.ext_getElem
  · simp [hc]
  · intro n h1 h2
    simp at h1 h2
    have hn : n < buf.length := by omega
    simp [List.getD, List.getElem?_eq_getElem hn]
    exact hb _ (List.getElem_mem hn)

/-! ## Command framer: registers -/

/-- The actions of one `nRF24_RWReg`. -/
theorem RWReg_trace (p : Port σ) (reg value : Nat) (r : Run σ) :
    (nRF24_RWReg p reg value r).2.trace
      = r.trace ++ [Ev.csn false, Ev.spi (reg % 256) (nRF24_RWReg p reg value r).1,
          Ev.spi (value % 256)
            (nRF24_ReadWrite p value (nRF24_ReadWrite p reg (CSN_L p r)).2).1,
          Ev.csn true] := by
  simp [nRF24_RWReg]

/-- The actions of one `nRF24_ReadReg`. -/
theorem ReadReg_trace (p : Port σ) (reg : Nat) (r : Run σ) :
    (nRF24_ReadReg p reg r).2.trace
      = r.trace ++ [Ev.csn false, Ev.spi (reg % 256) (nRF24_ReadWrite p reg (CSN_L p r)).1,
          Ev.spi 0 (nRF24_ReadReg p reg r).1, Ev.csn true] := by
  simp [nRF24_ReadReg]

/-- C7: for every `reg` and `value`, `nRF24_RWReg` adds to the trace exactly
chip-select low, the exchange sending `reg`, the exchange sending `value`,
chip-select high; and the value it returns is the byte received in the first
of the two exchanges (the answer of the device to `reg`). -/
theorem nRF24_RWReg_two_exchanges_status_first (p : Port σ) (reg value : Nat) (r : Run σ) :
    ∃ first second : Nat,
      first = (p.spi (reg % 256) (p.csn false r.dev)).1 % 256 ∧
      second = (p.spi (value % 256) (p.spi (reg % 256) (p.csn false r.dev)).2).1 % 256 ∧
      (nRF24_RWReg p reg value r).2.trace
        = r.trace ++ [Ev.csn false, Ev.spi (reg % 256) first,
                      Ev.spi (value % 256) second, Ev.csn true] ∧
      spiOut [Ev.csn false, Ev.spi (reg % 256) first,
              Ev.spi (value % 256) second, Ev.csn true] = [reg % 256, value % 256] ∧
      (nRF24_RWReg p reg value r).1 = first := by
  refine ⟨_, _, rfl, rfl, ?_, rfl, rfl⟩
  simp [nRF24_RWReg, nRF24_ReadWrite, CSN_L, CSN_H]

/-- C8: for every `reg`, `nRF24_ReadReg` adds to the trace exactly chip-select
low, the exchange sending `reg`, the exchange sending the dummy byte 0,
chip-select high; and the value it returns is the byte received in the second
exchange, the byte received in the first one being dropped. -/
theorem nRF24_ReadReg_two_exchanges_value_second (p : Port σ) (reg : Nat) (r : Run σ) :
    ∃ first second : Nat,
      first = (p.spi (reg % 256) (p.csn false r.dev)).1 % 256 ∧
      second = (p.spi 0 (p.spi (reg % 256) (p.csn false r.dev)).2).1 % 256 ∧
      (nRF24_ReadReg p reg r).2.trace
        = r.trace ++ [Ev.csn false, Ev.spi (reg % 256) first, Ev.spi 0 second, Ev.csn true] ∧
      spiOut [Ev.csn false, Ev.spi (reg % 256) first, Ev.spi 0 second, Ev.csn true]
        = [reg % 256, 0] ∧
      (nRF24_ReadReg p reg r).1 = second := by
  refine ⟨_, _, rfl, rfl, ?_, rfl, rfl⟩
  simp [nRF24_ReadReg, nRF24_ReadWrite, CSN_L, CSN_H]

/-! ## Command framer: buffers -/

/-- What one call of `nRF24_ReadBuf` does, for a count that fits a byte. -/
theorem ReadBuf_run (p : Port σ) (reg : Nat) (pBuf : Nat → Nat)
    (count : Nat) (r : Run σ) (hc : count < 256) :
    ∃ (st : Nat) (bs : List Nat),
      st = (p.spi (reg % 256) (p.csn false r.dev)).1 % 256 ∧
      bs.length = count ∧
      (nRF24_ReadBuf p reg pBuf count r).run.trace
        = r.trace ++ [Ev.csn false, Ev.spi (reg % 256) st] ++ bs.map (Ev.spi 0)
            ++ [Ev.csn false] ∧
      (spiOut ([Ev.csn false, Ev.spi (reg % 256) st] ++ bs.map (Ev.spi 0)
            ++ [Ev.csn false])).length = count + 1 ∧
      (nRF24_ReadBuf p reg pBuf count r).status = st ∧
      (∀ i, i < count → (nRF24_ReadBuf p reg pBuf count r).buf i = bs.getD i 0) ∧
      (∀ i, count ≤ i → (nRF24_ReadBuf p reg pBuf count r).buf i = pBuf i) := by
  obtain ⟨bs, hlen, htr, _, hin, hout⟩ :=
    ReadBuf_loop_spec p count 0 pBuf (nRF24_ReadWrite p reg (CSN_L p r)).2
  have hm : count % 256 = count := Nat.mod_eq_of_lt hc
  have hso : ∀ l : List Nat, spiOut (l.map (Ev.spi 0) ++ [Ev.csn false])
      = List.replicate l.length 0 := by
    intro l
    induction l with
    | nil => rfl
    | cons a t ih => simp [spiOut, ih, List.replicate_succ]
  refine ⟨_, bs, rfl, hlen, ?_, ?_, rfl, ?_, ?_⟩
  · simp [nRF24_ReadBuf, hm, htr]
    simp [nRF24_ReadWrite, CSN_L]
  · have := hso bs
    simp [spiOut, hlen] at this ⊢
    simp [this]
  · intro i hi
    have h := hin i hi
    simpa [nRF24_ReadBuf, hm] using h
  · intro i hi
    have h := hout i (Or.inr (by omega))
    simpa [nRF24_ReadBuf, hm] using h

/-- C9: for every `reg` and every `count` in 0..255, `nRF24_ReadBuf` performs
exactly `count + 1` exchanges: it sends `reg`, then `count` times the dummy
byte 0; it returns the byte `st` received in the first exchange; cell `i` of
the buffer, for `i < count`, holds the byte received in exchange `i + 1`, and
no other cell is written (none at all when `count = 0`).  The action that
closes the trace is the second `CSN_L()` of the source. -/
theorem nRF24_ReadBuf_count_plus_one_exchanges (p : Port σ) (reg : Nat) (pBuf : Nat → Nat)
    (count : Nat) (r : Run σ) (hc : count < 256) :
    ∃ (st : Nat) (bs : List Nat),
      st = (p.spi (reg % 256) (p.csn false r.dev)).1 % 256 ∧
      bs.length = count ∧
      (nRF24_ReadBuf p reg pBuf count r).run.trace
        = r.trace ++ [Ev.csn false, Ev.spi (reg % 256) st] ++ bs.map (Ev.spi 0)
            ++ [Ev.csn false] ∧
      (spiOut ([Ev.csn false, Ev.spi (reg % 256) st] ++ bs.map (Ev.spi 0)
            ++ [Ev.csn false])).length = count + 1 ∧
      (nRF24_ReadBuf p reg pBuf count r).status = st ∧
      (∀ i, i < count → (nRF24_ReadBuf p reg pBuf count r).buf i = bs.getD i 0) ∧
      (∀ i, count ≤ i → (nRF24_ReadBuf p reg pBuf count r).buf i = pBuf i) :=
  ReadBuf_run p reg pBuf count r hc

/-- Witness of C9: three bytes read from the TX-address register of a
simulated chip. -/
theorem nRF24_ReadBuf_count_plus_one_exchanges_witness :
    3 < 256 ∧
    ∃ (st : Nat) (bs : List Nat),
      st = (simPort.spi (nRF24_REG_TX_ADDR % 256)
              (simPort.csn false (Run.init (Chip.reset false 0 0)).dev)).1 % 256 ∧
      bs.length = 3 ∧
      (nRF24_ReadBuf simPort nRF24_REG_TX_ADDR (fun _ => 7) 3
          (Run.init (Chip.reset false 0 0))).run.trace
        = (Run.init (Chip.reset false 0 0)).trace
            ++ [Ev.csn false, Ev.spi (nRF24_REG_TX_ADDR % 256) st] ++ bs.map (Ev.spi 0)
            ++ [Ev.csn false] ∧
      (spiOut ([Ev.csn false, Ev.spi (nRF24_REG_TX_ADDR % 256) st] ++ bs.map (Ev.spi 0)
            ++ [Ev.csn false])).length = 3 + 1 ∧
      (nRF24_ReadBuf simPort nRF24_REG_TX_ADDR (fun _ => 7) 3
          (Run.init (Chip.reset false 0 0))).status = st ∧
      (∀ i, i < 3 → (nRF24_ReadBuf simPort nRF24_REG_TX_ADDR (fun _ => 7) 3
          (Run.init (Chip.reset false 0 0))).buf i = bs.getD i 0) ∧
      (∀ i, 3 ≤ i → (nRF24_ReadBuf simPort nRF24_REG_TX_ADDR (fun _ => 7) 3
          (Run.init (Chip.reset false 0 0))).buf i = (fun _ => 7) i) :=
  ⟨by decide,
   nRF24_ReadBuf_count_plus_one_exchanges simPort nRF24_REG_TX_ADDR (fun _ => 7) 3
     (Run.init (Chip.reset false 0 0)) (by decide)⟩

/-- What one call of `nRF24_WriteBuf` does on a buffer given as a list of bytes. -/
theorem WriteBuf_run (p : Port σ) (reg : Nat) (buf : List Nat)
    (count : Nat) (r : Run σ) (hc : count < 256) (hlen : count ≤ buf.length)
    (hb : ∀ b ∈ buf, b < 256) :
    ∃ (st : Nat) (ins : List Nat),
      st = (p.spi (reg % 256) (p.csn false r.dev)).1 % 256 ∧
      ins.length = count ∧
      (nRF24_WriteBuf p reg (fun i => buf.getD i 0) count r).2.trace
        = r.trace ++ [Ev.csn false, Ev.spi (reg % 256) st]
            ++ List.zipWith Ev.spi (buf.take count) ins ++ [Ev.csn true] ∧
      (nRF24_WriteBuf p reg (fun i => buf.getD i 0) count r).1 = st := by
  obtain ⟨ins, hl, htr, _⟩ :=
    WriteBuf_loop_spec p (fun i => buf.getD i 0) count 0 (nRF24_ReadWrite p reg (CSN_L p r)).2
  have hm : count % 256 = count := Nat.mod_eq_of_lt hc
  rw [take_as_memory buf hb count hlen] at htr
  refine ⟨_, ins, rfl, hl, ?_, rfl⟩
  simp only [nRF24_WriteBuf, hm, CSN_H_trace, htr]
  simp [nRF24_ReadWrite, CSN_L]

/-- C10: for every `reg`, every `count` in 0..255 and every input buffer
`buf` of at least `count` bytes, `nRF24_WriteBuf` performs exactly
`count + 1` exchanges between chip-select low and chip-select high: the bytes
sent are `reg` followed by the first `count` bytes of `buf` in order; the
value returned is the byte `st` received in the first exchange, whatever the
bytes `ins` received in the later ones. -/
theorem nRF24_WriteBuf_count_plus_one_exchanges (p : Port σ) (reg : Nat) (buf : List Nat)
    (count : Nat) (r : Run σ) (hc : count < 256) (hlen : count ≤ buf.length)
    (hb : ∀ b ∈ buf, b < 256) :
    ∃ (st : Nat) (ins : List Nat),
      st = (p.spi (reg % 256) (p.csn false r.dev)).1 % 256 ∧
      ins.length = count ∧
      (nRF24_WriteBuf p reg (fun i => buf.getD i 0) count r).2.trace
        = r.trace ++ [Ev.csn false, Ev.spi (reg % 256) st]
            ++ List.zipWith Ev.spi (buf.take count) ins ++ [Ev.csn true] ∧
      (nRF24_WriteBuf p reg (fun i => buf.getD i 0) count r).1 = st :=
  WriteBuf_run p reg buf count r hc hlen hb

/-- Witness of C10: a three-byte payload taken from a five-byte buffer. -/
theorem nRF24_WriteBuf_count_plus_one_exchanges_witness :
    3 < 256 ∧ 3 ≤ [1, 2, 3, 4, 5].length ∧ (∀ b ∈ [1, 2, 3, 4, 5], b < 256) ∧
    ∃ (st : Nat) (ins : List Nat),
      st = (simPort.spi (nRF24_CMD_W_TX_PAYLOAD % 256)
              (simPort.csn false (Run.init (Chip.reset false 0 0)).dev)).1 % 256 ∧
      ins.length = 3 ∧
      (nRF24_WriteBuf simPort nRF24_CMD_W_TX_PAYLOAD (fun i => [1, 2, 3, 4, 5].getD i 0) 3
          (Run.init (Chip.reset false 0 0))).2.trace
        = (Run.init (Chip.reset false 0 0)).trace
            ++ [Ev.csn false, Ev.spi (nRF24_CMD_W_TX_PAYLOAD % 256) st]
            ++ List.zipWith Ev.spi ([1, 2, 3, 4, 5].take 3) ins ++ [Ev.csn true] ∧
      (nRF24_WriteBuf simPort nRF24_CMD_W_TX_PAYLOAD (fun i => [1, 2, 3, 4, 5].getD i 0) 3
          (Run.init (Chip.reset false 0 0))).1 = st :=
  ⟨by decide, by decide, by decide,
   nRF24_WriteBuf_count_plus_one_exchanges simPort nRF24_CMD_W_TX_PAYLOAD [1, 2, 3, 4, 5] 3
     (Run.init (Chip.reset false 0 0)) (by decide) (by decide) (by decide)⟩

/-! ## Chip-select bracketing -/

/-- C4: the bracketing fails for `nRF24_ReadBuf`.  For every argument the call
ends with chip-select driven low again (line 129 repeats `CSN_L()`): the pin
latch is low on return and the last action of the trace is chip-select low,
never chip-select high.  The three sibling operations, on the same
arguments, do return with chip-select high. -/
theorem nRF24_ReadBuf_returns_with_chip_select_low (p : Port σ) (reg value : Nat)
    (pBuf : Nat → Nat) (count : Nat) (r : Run σ) :
    (nRF24_ReadBuf p reg pBuf count r).run.csn = false ∧
    (nRF24_ReadBuf p reg pBuf count r).run.trace.getLast? = some (Ev.csn false) ∧
    (nRF24_RWReg p reg value r).2.csn = true ∧
    (nRF24_RWReg p reg value r).2.trace.getLast? = some (Ev.csn true) ∧
    (nRF24_ReadReg p reg r).2.csn = true ∧
    (nRF24_ReadReg p reg r).2.trace.getLast? = some (Ev.csn true) ∧
    (nRF24_WriteBuf p reg pBuf count r).2.csn = true ∧
    (nRF24_WriteBuf p reg pBuf count r).2.trace.getLast? = some (Ev.csn true) := by
  refine ⟨rfl, ?_, rfl, ?_, rfl, ?_, rfl, ?_⟩
  · simp [nRF24_ReadBuf]
  · simp [nRF24_RWReg]
  · simp [nRF24_ReadReg]
  · simp [nRF24_WriteBuf]

/-! ## Presence check -/

/-- C6: `nRF24_Check` reads the TX-address register back in one transaction
of six exchanges, receiving the status byte `st` and then the five bytes
`b0 .. b4`; it returns 1 if and only if these five bytes are 'n','R','F','2','4'
in that order, and it returns 0 if and only if they differ from that pattern
in at least one position. -/
theorem nRF24_Check_one_iff_pattern (p : Port σ) (rxbuf : Nat → Nat) (r : Run σ) :
    ∃ (pre : List Ev) (st b0 b1 b2 b3 b4 : Nat),
      (nRF24_Check p rxbuf r).2.trace
        = pre ++ [Ev.csn false, Ev.spi nRF24_REG_TX_ADDR st, Ev.spi 0 b0, Ev.spi 0 b1,
                  Ev.spi 0 b2, Ev.spi 0 b3, Ev.spi 0 b4, Ev.csn false] ∧
      ((nRF24_Check p rxbuf r).1 = 1 ↔ [b0, b1, b2, b3, b4] = [110, 82, 70, 50, 52]) ∧
      ((nRF24_Check p rxbuf r).1 = 0 ↔ [b0, b1, b2, b3, b4] ≠ [110, 82, 70, 50, 52]) := by
  obtain ⟨st, bs, _, hlen, htr, _, _, hin, _⟩ :=
    ReadBuf_run p nRF24_REG_TX_ADDR rxbuf 5
      (nRF24_WriteBuf p (nRF24_CMD_WREG ||| nRF24_REG_TX_ADDR) Check_txbuf 5 r).2 (by decide)
  match bs, hlen with
  | [b0, b1, b2, b3, b4], _ =>
    have h0 := hin 0 (by decide)
    have h1 := hin 1 (by decide)
    have h2 := hin 2 (by decide)
    have h3 := hin 3 (by decide)
    have h4 := hin 4 (by decide)
    simp at h0 h1 h2 h3 h4
    refine ⟨(nRF24_WriteBuf p (nRF24_CMD_WREG ||| nRF24_REG_TX_ADDR) Check_txbuf 5 r).2.trace,
      st, b0, b1, b2, b3, b4, ?_, ?_, ?_⟩
    · have e : (nRF24_Check p rxbuf r).2.trace
          = (nRF24_ReadBuf p nRF24_REG_TX_ADDR rxbuf 5
              (nRF24_WriteBuf p (nRF24_CMD_WREG ||| nRF24_REG_TX_ADDR) Check_txbuf 5 r).2).run.trace := by
        rfl
      rw [e, htr]
      simp [nRF24_REG_TX_ADDR]
    · unfold nRF24_Check
      simp only [Check_loop, h0, h1, h2, h3, h4, Check_txbuf]
      simp
      split_ifs <;> simp_all
    · unfold nRF24_Check
      simp only [Check_loop, h0, h1, h2, h3, h4, Check_txbuf]
      simp
      split_ifs <;> simp_all

/-! ## Transmit state machine: outcome -/

/-- The value returned by lines 216-231, as a function of the status byte
read by line 217. -/
theorem TXPacket_finish_value (p : Port σ) (r1 : Run σ) :
    (TXPacket_finish p r1).1
      = if (nRF24_ReadReg p nRF24_REG_STATUS (CE_L p r1)).1 &&& nRF24_MASK_MAX_RT ≠ 0 then
          nRF24_MASK_MAX_RT
        else if (nRF24_ReadReg p nRF24_REG_STATUS (CE_L p r1)).1 &&& nRF24_MASK_TX_DS ≠ 0 then
          nRF24_MASK_TX_DS
        else (nRF24_ReadReg p nRF24_REG_STATUS (CE_L p r1)).1 := by
  simp only [TXPacket_finish]
  split_ifs <;> rfl

set_option maxRecDepth 100000 in
/-- The two tests of lines 219 and 224 are tests of bit 4 and of bit 5. -/
theorem status_tests : ∀ s, s < 256 →
    ((s &&& nRF24_MASK_MAX_RT ≠ 0) ↔ s.testBit 4 = true) ∧
    ((s &&& nRF24_MASK_TX_DS ≠ 0) ↔ s.testBit 5 = true) ∧
    (s.testBit 4 = false → s.testBit 5 = false →
      s ≠ nRF24_MASK_TX_DS ∧ s ≠ nRF24_MASK_MAX_RT) := by
  decide

set_option maxRecDepth 100000 in
/-- Classification of every status byte by the two tests of lines 219 and 224. -/
theorem status_classes : ∀ s, s < 256 →
    (((if s &&& nRF24_MASK_MAX_RT ≠ 0 then nRF24_MASK_MAX_RT
        else if s &&& nRF24_MASK_TX_DS ≠ 0 then nRF24_MASK_TX_DS else s) = nRF24_MASK_TX_DS
      ↔ (s.testBit 5 = true ∧ s.testBit 4 = false)) ∧
     ((if s &&& nRF24_MASK_MAX_RT ≠ 0 then nRF24_MASK_MAX_RT
        else if s &&& nRF24_MASK_TX_DS ≠ 0 then nRF24_MASK_TX_DS else s) = nRF24_MASK_MAX_RT
      ↔ s.testBit 4 = true) ∧
     ((s.testBit 4 = false ∧ s.testBit 5 = false) →
      ((if s &&& nRF24_MASK_MAX_RT ≠ 0 then nRF24_MASK_MAX_RT
        else if s &&& nRF24_MASK_TX_DS ≠ 0 then nRF24_MASK_TX_DS else s) = s
        ∧ s ≠ nRF24_MASK_TX_DS ∧ s ≠ nRF24_MASK_MAX_RT))) := by
  decide

/-- C1: whenever the wait loop of `nRF24_TXPacket` is left (the interrupt
line asserts within the reads allowed, run state `r1`), the call returns.
With `s` the status byte read from the STATUS register by line 217: the
value returned is `nRF24_MASK_TX_DS` exactly when `s` has bit 5 set and bit 4
clear; it is `nRF24_MASK_MAX_RT` exactly when `s` has bit 4 set, whatever
bit 5 is; and when neither bit is set the value returned is `s` itself, which
is neither of the two masks.  This holds for every payload, length and
device. -/
theorem nRF24_TXPacket_outcome (p : Port σ) (fuel : Nat) (pBuf : Nat → Nat) (n : Nat)
    (r r1 : Run σ) (h : waitIRQ p fuel (TXPacket_arm p pBuf n r) = some r1) :
    ∃ (out : Nat × Run σ) (s : Nat),
      nRF24_TXPacket p fuel pBuf n r = some out ∧
      s = (nRF24_ReadReg p nRF24_REG_STATUS (CE_L p r1)).1 ∧
      (out.1 = nRF24_MASK_TX_DS ↔ (s.testBit 5 = true ∧ s.testBit 4 = false)) ∧
      (out.1 = nRF24_MASK_MAX_RT ↔ s.testBit 4 = true) ∧
      ((s.testBit 4 = false ∧ s.testBit 5 = false) →
        (out.1 = s ∧ s ≠ nRF24_MASK_TX_DS ∧ s ≠ nRF24_MASK_MAX_RT)) := by
  have hs : (nRF24_ReadReg p nRF24_REG_STATUS (CE_L p r1)).1 < 256 := ReadWrite_lt _ _ _
  have hc := status_classes _ hs
  rw [← TXPacket_finish_value] at hc
  exact ⟨TXPacket_finish p r1, _, by simp [nRF24_TXPacket, h], rfl, hc⟩

/-- Witness of C1: a simulated chip that acknowledges the packet after two
reads of the interrupt pin. -/
theorem nRF24_TXPacket_outcome_witness :
    waitIRQ simPort 5 (TXPacket_arm simPort demoPayload 3 (Run.init (Chip.reset true 2 0x20)))
      = some (demoAfterWait true 2 0x20) ∧
    ∃ (out : Nat × Run Chip) (s : Nat),
      nRF24_TXPacket simPort 5 demoPayload 3 (Run.init (Chip.reset true 2 0x20)) = some out ∧
      s = (nRF24_ReadReg simPort nRF24_REG_STATUS (CE_L simPort (demoAfterWait true 2 0x20))).1 ∧
      (out.1 = nRF24_MASK_TX_DS ↔ (s.testBit 5 = true ∧ s.testBit 4 = false)) ∧
      (out.1 = nRF24_MASK_MAX_RT ↔ s.testBit 4 = true) ∧
      ((s.testBit 4 = false ∧ s.testBit 5 = false) →
        (out.1 = s ∧ s ≠ nRF24_MASK_TX_DS ∧ s ≠ nRF24_MASK_MAX_RT)) :=
  ⟨rfl, nRF24_TXPacket_outcome simPort 5 demoPayload 3 (Run.init (Chip.reset true 2 0x20))
    (demoAfterWait true 2 0x20) rfl⟩

/-! ## Register round trip on the simulated chip -/

/-- Decoding of the command byte `nRF24_CMD_WREG | addr` for the register
addresses of the chip. -/
theorem wreg_decode : ∀ addr, addr < 0x18 →
    (nRF24_CMD_WREG ||| addr) % 256 / 32 = 1 ∧ (nRF24_CMD_WREG ||| addr) % 256 % 32 = addr ∧
    addr % 256 / 32 = 0 ∧ addr % 256 % 32 = addr ∧ addr % 256 = addr := by
  decide

/-- C5: on a simulated chip that stores register writes (`w1c` off) and has
chip-select high, for every register address `addr` in 0x00..0x17 and every
byte `v`, `nRF24_RWReg(nRF24_CMD_WREG | addr, v)` followed by
`nRF24_ReadReg(addr)` returns `v`. -/
theorem nRF24_RWReg_ReadReg_round_trip (addr v : Nat) (r : Run Chip)
    (ha : addr ≤ 0x17) (hv : v < 256) (hstore : r.dev.w1c = false) (hcsn : r.dev.csn = true) :
    (nRF24_ReadReg simPort addr (nRF24_RWReg simPort (nRF24_CMD_WREG ||| addr) v r).2).1 = v := by
  obtain ⟨d1, d2, d3, d4, d5⟩ := wreg_decode addr (by omega)
  obtain ⟨⟨regs, fifo, csn, ce, cmd, idx, w1c, lat, outc⟩, rc, re, tr⟩ := r
  simp only at hstore hcsn
  subst hstore hcsn
  have e1 : addr / 32 = 0 := by omega
  have e2 : addr % 32 = addr := by omega
  have e3 : addr < 32 := by omega
  simp [nRF24_ReadReg, nRF24_RWReg, nRF24_ReadWrite, CSN_L, CSN_H, simPort, Chip.spi,
    Chip.write, d1, d2, d5, e1, e2, e3, Nat.mod_eq_of_lt hv]

/-- Witness of C5: the RF_CH register of a freshly reset simulated chip. -/
theorem nRF24_RWReg_ReadReg_round_trip_witness :
    nRF24_REG_RF_CH ≤ 0x17 ∧ 77 < 256 ∧
    (Run.init (Chip.reset false 0 0)).dev.w1c = false ∧
    (Run.init (Chip.reset false 0 0)).dev.csn = true ∧
    (nRF24_ReadReg simPort nRF24_REG_RF_CH
      (nRF24_RWReg simPort (nRF24_CMD_WREG ||| nRF24_REG_RF_CH) 77
        (Run.init (Chip.reset false 0 0))).2).1 = 77 :=
  ⟨by decide, by decide, rfl, rfl,
   nRF24_RWReg_ReadReg_round_trip nRF24_REG_RF_CH 77 (Run.init (Chip.reset false 0 0))
     (by decide) (by decide) rfl rfl⟩

/-! ## Transmit state machine: status write-back and flush -/

/-- The actions of lines 216-231: chip-enable low, the STATUS read, the
write-back of the byte just read, and then the flush transaction exactly when
the byte read has bit 4 or bit 5 set. -/
theorem TXPacket_finish_trace (p : Port σ) (r1 : Run σ) :
    ∃ x a b f1 f2 : Nat,
      (TXPacket_finish p r1).2.trace
        = r1.trace ++
          [Ev.ce false,
           Ev.csn false, Ev.spi nRF24_REG_STATUS x,
             Ev.spi 0 (nRF24_ReadReg p nRF24_REG_STATUS (CE_L p r1)).1, Ev.csn true,
           Ev.csn false, Ev.spi (nRF24_CMD_WREG ||| nRF24_REG_STATUS) a,
             Ev.spi (nRF24_ReadReg p nRF24_REG_STATUS (CE_L p r1)).1 b, Ev.csn true] ++
          (if (nRF24_ReadReg p nRF24_REG_STATUS (CE_L p r1)).1.testBit 4 = true ∨
              (nRF24_ReadReg p nRF24_REG_STATUS (CE_L p r1)).1.testBit 5 = true then
            [Ev.csn false, Ev.spi nRF24_CMD_FLUSH_TX f1, Ev.spi 0xFF f2, Ev.csn true]
          else []) := by
  have hs : (nRF24_ReadReg p nRF24_REG_STATUS (CE_L p r1)).1 < 256 := ReadWrite_lt _ _ _
  obtain ⟨h4, h5, -⟩ := status_tests _ hs
  have hm := Nat.mod_eq_of_lt hs
  refine ⟨(nRF24_ReadWrite p nRF24_REG_STATUS (CSN_L p (CE_L p r1))).1,
    (nRF24_RWReg p (nRF24_CMD_WREG ||| nRF24_REG_STATUS)
      (nRF24_ReadReg p nRF24_REG_STATUS (CE_L p r1)).1
      (nRF24_ReadReg p nRF24_REG_STATUS (CE_L p r1)).2).1,
    (nRF24_ReadWrite p (nRF24_ReadReg p nRF24_REG_STATUS (CE_L p r1)).1
      (nRF24_ReadWrite p (nRF24_CMD_WREG ||| nRF24_REG_STATUS)
        (CSN_L p (nRF24_ReadReg p nRF24_REG_STATUS (CE_L p r1)).2)).2).1,
    (nRF24_RWReg p nRF24_CMD_FLUSH_TX 0xFF
      (nRF24_RWReg p (nRF24_CMD_WREG ||| nRF24_REG_STATUS)
        (nRF24_ReadReg p nRF24_REG_STATUS (CE_L p r1)).1
        (nRF24_ReadReg p nRF24_REG_STATUS (CE_L p r1)).2).2).1,
    (nRF24_ReadWrite p 0xFF (nRF24_ReadWrite p nRF24_CMD_FLUSH_TX
      (CSN_L p (nRF24_RWReg p (nRF24_CMD_WREG ||| nRF24_REG_STATUS)
        (nRF24_ReadReg p nRF24_REG_STATUS (CE_L p r1)).1
        (nRF24_ReadReg p nRF24_REG_STATUS (CE_L p r1)).2).2)).2).1, ?_⟩
  have e7 : nRF24_REG_STATUS % 256 = nRF24_REG_STATUS := by decide
  have e27 : (nRF24_CMD_WREG ||| nRF24_REG_STATUS) % 256
      = nRF24_CMD_WREG ||| nRF24_REG_STATUS := by decide
  have eF : nRF24_CMD_FLUSH_TX % 256 = nRF24_CMD_FLUSH_TX := by decide
  by_cases c4 : (nRF24_ReadReg p nRF24_REG_STATUS (CE_L p r1)).1 &&& nRF24_MASK_MAX_RT ≠ 0
  · have b4 := h4.mp c4
    simp only [TXPacket_finish, if_pos c4, b4, true_or, if_true]
    rw [RWReg_trace, RWReg_trace, ReadReg_trace, CE_L_trace, e7, e27, eF, hm]
    simp
  · by_cases c5 : (nRF24_ReadReg p nRF24_REG_STATUS (CE_L p r1)).1 &&& nRF24_MASK_TX_DS ≠ 0
    · have b5 := h5.mp c5
      simp only [TXPacket_finish, if_neg c4, if_pos c5, b5, or_true, if_true]
      rw [RWReg_trace, RWReg_trace, ReadReg_trace, CE_L_trace, e7, e27, eF, hm]
      simp
    · have b4 : ¬ (nRF24_ReadReg p nRF24_REG_STATUS (CE_L p r1)).1.testBit 4 = true :=
        fun hb => c4 (h4.mpr hb)
      have b5 : ¬ (nRF24_ReadReg p nRF24_REG_STATUS (CE_L p r1)).1.testBit 5 = true :=
        fun hb => c5 (h5.mpr hb)
      simp only [TXPacket_finish, if_neg c4, if_neg c5, b4, b5, or_self, if_false]
      rw [RWReg_trace, ReadReg_trace, CE_L_trace, e7, e27, hm]
      simp

/-! ## The simulated chip during a transmission -/

/-- A byte exchange changes neither the chip-select level seen by the
simulated chip nor its STATUS write mode. -/
theorem sim_spi_keeps (o : Nat) (c : Chip) :
    (Chip.spi o c).2.csn = c.csn ∧ (Chip.spi o c).2.w1c = c.w1c := by
  unfold Chip.spi
  by_cases hc : c.csn = true
  · rw [if_pos hc]
    exact ⟨rfl, rfl⟩
  · rw [if_neg hc]
    cases c.cmd with
    | none => exact ⟨rfl, rfl⟩
    | some k => dsimp only; split_ifs <;> exact ⟨rfl, rfl⟩

/-- The write loop on the simulated chip keeps the chip-select level and the
STATUS write mode of the chip. -/
theorem sim_WriteBuf_loop_keeps (pBuf : Nat → Nat) :
    ∀ (k i : Nat) (r : Run Chip),
      (WriteBuf_loop simPort k i pBuf r).dev.csn = r.dev.csn ∧
      (WriteBuf_loop simPort k i pBuf r).dev.w1c = r.dev.w1c := by
  intro k
  induction k with
  | zero => intro i r; exact ⟨rfl, rfl⟩
  | succ k ih =>
    intro i r
    have h := ih (i + 1) (nRF24_ReadWrite simPort (pBuf i) r).2
    have hk := sim_spi_keeps (pBuf i % 256) r.dev
    simp only [WriteBuf_loop]
    exact ⟨h.1.trans hk.1, h.2.trans hk.2⟩

/-- Driving chip-select keeps the STATUS write mode, and driving it high
leaves the simulated chip unselected. -/
theorem sim_csn_keeps (h : Bool) (c : Chip) :
    (simPort.csn h c).csn = h ∧ (simPort.csn h c).w1c = c.w1c := by
  simp only [simPort]
  split_ifs with e
  · exact ⟨e, rfl⟩
  · exact ⟨rfl, rfl⟩

/-- After lines 211-213 the simulated chip is unselected. -/
theorem sim_arm_keeps (pBuf : Nat → Nat) (n : Nat) (r : Run Chip) :
    (TXPacket_arm simPort pBuf n r).dev.csn = true ∧
    (TXPacket_arm simPort pBuf n r).dev.w1c = r.dev.w1c := by
  have hl := sim_WriteBuf_loop_keeps pBuf (n % 256) 0
    (nRF24_ReadWrite simPort nRF24_CMD_W_TX_PAYLOAD (CSN_L simPort (CE_L simPort r))).2
  have hs := sim_spi_keeps (nRF24_CMD_W_TX_PAYLOAD % 256) (CSN_L simPort (CE_L simPort r)).dev
  have hc := sim_csn_keeps false (CE_L simPort r).dev
  have hh := sim_csn_keeps true (WriteBuf_loop simPort (n % 256) 0 pBuf
    (nRF24_ReadWrite simPort nRF24_CMD_W_TX_PAYLOAD (CSN_L simPort (CE_L simPort r))).2).dev
  refine ⟨hh.1, ?_⟩
  have e : (TXPacket_arm simPort pBuf n r).dev.w1c
      = (simPort.csn true (WriteBuf_loop simPort (n % 256) 0 pBuf
          (nRF24_ReadWrite simPort nRF24_CMD_W_TX_PAYLOAD
            (CSN_L simPort (CE_L simPort r))).2).dev).w1c := rfl
  rw [e, hh.2, hl.2]
  exact hs.2.trans hc.2

/-- The wait loop keeps the chip-select level and the STATUS write mode of
the simulated chip. -/
theorem sim_wait_keeps :
    ∀ (fuel : Nat) (r r1 : Run Chip), waitIRQ simPort fuel r = some r1 →
      r1.dev.csn = r.dev.csn ∧ r1.dev.w1c = r.dev.w1c := by
  intro fuel
  induction fuel with
  | zero => intro r r1 h; simp [waitIRQ] at h
  | succ f ih =>
    intro r r1 h
    have hk : (readIRQ simPort r).2.dev.csn = r.dev.csn ∧
        (readIRQ simPort r).2.dev.w1c = r.dev.w1c := by
      simp only [readIRQ, simPort, Chip.irq]
      split_ifs <;> exact ⟨rfl, rfl⟩
    simp only [waitIRQ] at h
    split_ifs at h with hx
    · have := ih _ _ h
      exact ⟨this.1.trans hk.1, this.2.trans hk.2⟩
    · cases h
      exact hk

/-- The status byte read by line 217 on an unselected simulated chip is its
STATUS register. -/
theorem sim_status_read (r1 : Run Chip) (hcsn : r1.dev.csn = true) :
    (nRF24_ReadReg simPort nRF24_REG_STATUS (CE_L simPort r1)).1
      = r1.dev.regs nRF24_REG_STATUS 0 % 256 := by
  obtain ⟨⟨regs, fifo, csn, ce, cmd, idx, w1c, lat, outc⟩, rc, re, tr⟩ := r1
  simp only at hcsn
  subst hcsn
  simp [nRF24_ReadReg, nRF24_ReadWrite, CSN_L, CE_L, simPort, Chip.spi, nRF24_REG_STATUS]

/-- Lines 216-231 on an unselected simulated chip: what is left in the STATUS
register when writes to it clear the flags written as one, and what is left
in the TX FIFO. -/
theorem sim_finish (r1 : Run Chip) (hcsn : r1.dev.csn = true) :
    (r1.dev.w1c = true →
      (TXPacket_finish simPort r1).2.dev.regs nRF24_REG_STATUS 0
        = r1.dev.regs nRF24_REG_STATUS 0
            &&& (0xFF ^^^ ((r1.dev.regs nRF24_REG_STATUS 0 % 256) &&& 0x70))) ∧
    (((r1.dev.regs nRF24_REG_STATUS 0 % 256).testBit 4 = true ∨
      (r1.dev.regs nRF24_REG_STATUS 0 % 256).testBit 5 = true) →
      (TXPacket_finish simPort r1).2.dev.txFifo = []) ∧
    (((r1.dev.regs nRF24_REG_STATUS 0 % 256).testBit 4 = false ∧
      (r1.dev.regs nRF24_REG_STATUS 0 % 256).testBit 5 = false) →
      (TXPacket_finish simPort r1).2.dev.txFifo = r1.dev.txFifo) := by
  have hr := sim_status_read r1 hcsn
  have hs : r1.dev.regs nRF24_REG_STATUS 0 % 256 < 256 := Nat.mod_lt _ (by decide)
  obtain ⟨h4, h5, -⟩ := status_tests _ hs
  obtain ⟨⟨regs, fifo, csn, ce, cmd, idx, w1c, lat, outc⟩, rc, re, tr⟩ := r1
  simp only at hcsn hr h4 h5 hs ⊢
  subst hcsn
  by_cases c4 : regs nRF24_REG_STATUS 0 % 256 &&& nRF24_MASK_MAX_RT ≠ 0
  · have b4 := h4.mp c4
    simp only [TXPacket_finish, hr, if_pos c4]
    simp [b4, nRF24_ReadReg, nRF24_RWReg, nRF24_ReadWrite, CSN_L, CSN_H, CE_L, simPort,
      Chip.spi, Chip.write, nRF24_REG_STATUS, nRF24_CMD_WREG, nRF24_CMD_FLUSH_TX,
      nRF24_CMD_W_TX_PAYLOAD]
    simp only [nRF24_REG_STATUS] at b4
    refine ⟨fun a b => absurd (a.symm.trans b) (by decide), fun a _ => ?_⟩
    rw [b4] at a
    cases a
  · by_cases c5 : regs nRF24_REG_STATUS 0 % 256 &&& nRF24_MASK_TX_DS ≠ 0
    · have b5 := h5.mp c5
      simp only [TXPacket_finish, hr, if_neg c4, if_pos c5]
      simp [b5, nRF24_ReadReg, nRF24_RWReg, nRF24_ReadWrite, CSN_L, CSN_H, CE_L, simPort,
        Chip.spi, Chip.write, nRF24_REG_STATUS, nRF24_CMD_WREG, nRF24_CMD_FLUSH_TX,
        nRF24_CMD_W_TX_PAYLOAD]
      simp only [nRF24_REG_STATUS] at b5
      refine ⟨fun a b => absurd (a.symm.trans b) (by decide), fun _ a => ?_⟩
      rw [b5] at a
      cases a
    · have b4 : ¬ (regs nRF24_REG_STATUS 0 % 256).testBit 4 = true := fun hb => c4 (h4.mpr hb)
      have b5 : ¬ (regs nRF24_REG_STATUS 0 % 256).testBit 5 = true := fun hb => c5 (h5.mpr hb)
      simp only [TXPacket_finish, hr, if_neg c4, if_neg c5]
      simp [b4, b5, nRF24_ReadReg, nRF24_RWReg, nRF24_ReadWrite, CSN_L, CSN_H, CE_L, simPort,
        Chip.spi, Chip.write, nRF24_REG_STATUS, nRF24_CMD_WREG, nRF24_CMD_FLUSH_TX,
        nRF24_CMD_W_TX_PAYLOAD]
      simp only [nRF24_REG_STATUS] at b4 b5
      refine ⟨fun a b => absurd (a.symm.trans b) (by decide), fun a => ?_⟩
      rcases a with a | a
      · exact absurd a b4
      · exact absurd a b5

/-- Clearing in a register the flag bits 4..6 that its own low byte has set
leaves bits 4 and 5 clear. -/
theorem w1c_clears (x : Nat) :
    (x &&& (0xFF ^^^ ((x % 256) &&& 0x70))).testBit 4 = false ∧
    (x &&& (0xFF ^^^ ((x % 256) &&& 0x70))).testBit 5 = false := by
  have e : (256 : Nat) = 2 ^ 8 := by norm_num
  rw [e]
  have a4 : Nat.testBit 255 4 = true := by decide
  have a5 : Nat.testBit 255 5 = true := by decide
  have c4 : Nat.testBit 112 4 = true := by decide
  have c5 : Nat.testBit 112 5 = true := by decide
  constructor
  · simp only [Nat.testBit_and, Nat.testBit_xor, Nat.testBit_mod_two_pow, a4, c4]
    cases x.testBit 4 <;> decide
  · simp only [Nat.testBit_and, Nat.testBit_xor, Nat.testBit_mod_two_pow, a5, c5]
    cases x.testBit 5 <;> decide

/-! ## Transmit state machine: flush of the TX FIFO -/

/-- C2, counterexample: on a simulated chip that raises only bit 6 of STATUS
when the interrupt asserts, `nRF24_TXPacket` returns the status byte 0x40
(the third outcome), no flush-TX byte has been sent on the bus, and the TX
FIFO still holds the three payload bytes. -/
theorem nRF24_TXPacket_unknown_outcome_no_flush :
    (nRF24_TXPacket simPort 5 demoPayload 3 (Run.init (Chip.reset true 2 0x40))).map
      (fun out => (out.1, decide (nRF24_CMD_FLUSH_TX ∈ spiOut out.2.trace), out.2.dev.txFifo))
      = some (0x40, false, [1, 2, 3]) := by
  decide

/-- C2, amended: whenever the wait loop is left, the call returns, and after
the STATUS read and write-back it issues the flush-TX transaction exactly
when the status byte `s` read has bit 4 (MAX_RT) or bit 5 (TX_DS) set, that
is, in the two outcomes MaxRetransmitExceeded and Success; in the third
outcome no further action follows the write-back.  On the simulated chip the
TX FIFO is therefore empty on return in the first two outcomes and keeps its
content in the third. -/
theorem nRF24_TXPacket_flush_on_completion_flag (p : Port σ) (fuel : Nat) (pBuf : Nat → Nat)
    (n : Nat) (r r1 : Run σ) (h : waitIRQ p fuel (TXPacket_arm p pBuf n r) = some r1)
    (fuelc : Nat) (pBufc : Nat → Nat) (nc : Nat) (rc r1c : Run Chip)
    (hc : waitIRQ simPort fuelc (TXPacket_arm simPort pBufc nc rc) = some r1c) :
    (∃ (out : Nat × Run σ) (s x a b f1 f2 : Nat),
      nRF24_TXPacket p fuel pBuf n r = some out ∧
      s = (nRF24_ReadReg p nRF24_REG_STATUS (CE_L p r1)).1 ∧
      out.2.trace
        = r1.trace ++
            [Ev.ce false,
             Ev.csn false, Ev.spi nRF24_REG_STATUS x, Ev.spi 0 s, Ev.csn true,
             Ev.csn false, Ev.spi (nRF24_CMD_WREG ||| nRF24_REG_STATUS) a, Ev.spi s b,
               Ev.csn true] ++
            (if s.testBit 4 = true ∨ s.testBit 5 = true then
              [Ev.csn false, Ev.spi nRF24_CMD_FLUSH_TX f1, Ev.spi 0xFF f2, Ev.csn true]
            else [])) ∧
    (∃ (outc : Nat × Run Chip) (sc : Nat),
      nRF24_TXPacket simPort fuelc pBufc nc rc = some outc ∧
      sc = (nRF24_ReadReg simPort nRF24_REG_STATUS (CE_L simPort r1c)).1 ∧
      ((sc.testBit 4 = true ∨ sc.testBit 5 = true) → outc.2.dev.txFifo = []) ∧
      ((sc.testBit 4 = false ∧ sc.testBit 5 = false) →
        outc.2.dev.txFifo = r1c.dev.txFifo)) := by
  constructor
  · obtain ⟨x, a, b, f1, f2, ht⟩ := TXPacket_finish_trace p r1
    exact ⟨TXPacket_finish p r1, _, x, a, b, f1, f2, by simp [nRF24_TXPacket, h], rfl, ht⟩
  · have hcsn : r1c.dev.csn = true :=
      (sim_wait_keeps _ _ _ hc).1.trans (sim_arm_keeps pBufc nc rc).1
    have hf := sim_finish r1c hcsn
    rw [← sim_status_read r1c hcsn] at hf
    exact ⟨TXPacket_finish simPort r1c, _, by simp [nRF24_TXPacket, hc], rfl, hf.2.1, hf.2.2⟩

/-- Witness of C2 (amended): an acknowledged packet on one simulated chip, a
packet that exhausts the retransmissions on another. -/
theorem nRF24_TXPacket_flush_on_completion_flag_witness :
    waitIRQ simPort 5 (TXPacket_arm simPort demoPayload 3 (Run.init (Chip.reset true 2 0x20)))
      = some (demoAfterWait true 2 0x20) ∧
    waitIRQ simPort 5 (TXPacket_arm simPort demoPayload 3 (Run.init (Chip.reset true 1 0x10)))
      = some (demoAfterWait true 1 0x10) ∧
    (∃ (out : Nat × Run Chip) (s x a b f1 f2 : Nat),
      nRF24_TXPacket simPort 5 demoPayload 3 (Run.init (Chip.reset true 2 0x20)) = some out ∧
      s = (nRF24_ReadReg simPort nRF24_REG_STATUS (CE_L simPort (demoAfterWait true 2 0x20))).1 ∧
      out.2.trace
        = (demoAfterWait true 2 0x20).trace ++
            [Ev.ce false,
             Ev.csn false, Ev.spi nRF24_REG_STATUS x, Ev.spi 0 s, Ev.csn true,
             Ev.csn false, Ev.spi (nRF24_CMD_WREG ||| nRF24_REG_STATUS) a, Ev.spi s b,
               Ev.csn true] ++
            (if s.testBit 4 = true ∨ s.testBit 5 = true then
              [Ev.csn false, Ev.spi nRF24_CMD_FLUSH_TX f1, Ev.spi 0xFF f2, Ev.csn true]
            else [])) ∧
    (∃ (outc : Nat × Run Chip) (sc : Nat),
      nRF24_TXPacket simPort 5 demoPayload 3 (Run.init (Chip.reset true 1 0x10)) = some outc ∧
      sc = (nRF24_ReadReg simPort nRF24_REG_STATUS (CE_L simPort (demoAfterWait true 1 0x10))).1 ∧
      ((sc.testBit 4 = true ∨ sc.testBit 5 = true) → outc.2.dev.txFifo = []) ∧
      ((sc.testBit 4 = false ∧ sc.testBit 5 = false) →
        outc.2.dev.txFifo = (demoAfterWait true 1 0x10).dev.txFifo)) :=
  ⟨rfl, rfl,
   nRF24_TXPacket_flush_on_completion_flag simPort 5 demoPayload 3
     (Run.init (Chip.reset true 2 0x20)) (demoAfterWait true 2 0x20) rfl
     5 demoPayload 3 (Run.init (Chip.reset true 1 0x10)) (demoAfterWait true 1 0x10) rfl⟩

/-! ## Transmit state machine: STATUS write-back -/

/-- C3: whenever the wait loop is left, the call returns, and the first two
transactions after it are the read of STATUS, receiving the byte `s`, and the
write to STATUS of that same byte `s`; whatever follows (`post`) comes after
them.  On a simulated chip whose STATUS flags are cleared by writing one,
bits 4 (MAX_RT) and 5 (TX_DS) of STATUS are both 0 when the call returns,
whatever the outcome. -/
theorem nRF24_TXPacket_writes_back_status (p : Port σ) (fuel : Nat) (pBuf : Nat → Nat)
    (n : Nat) (r r1 : Run σ) (h : waitIRQ p fuel (TXPacket_arm p pBuf n r) = some r1)
    (fuelc : Nat) (pBufc : Nat → Nat) (nc : Nat) (rc r1c : Run Chip)
    (hc : waitIRQ simPort fuelc (TXPacket_arm simPort pBufc nc rc) = some r1c)
    (hw : rc.dev.w1c = true) :
    (∃ (out : Nat × Run σ) (s x a b : Nat) (post : List Ev),
      nRF24_TXPacket p fuel pBuf n r = some out ∧
      s = (nRF24_ReadReg p nRF24_REG_STATUS (CE_L p r1)).1 ∧
      out.2.trace
        = r1.trace ++
            [Ev.ce false,
             Ev.csn false, Ev.spi nRF24_REG_STATUS x, Ev.spi 0 s, Ev.csn true,
             Ev.csn false, Ev.spi (nRF24_CMD_WREG ||| nRF24_REG_STATUS) a, Ev.spi s b,
               Ev.csn true] ++ post) ∧
    (∃ (outc : Nat × Run Chip),
      nRF24_TXPacket simPort fuelc pBufc nc rc = some outc ∧
      (outc.2.dev.regs nRF24_REG_STATUS 0).testBit 4 = false ∧
      (outc.2.dev.regs nRF24_REG_STATUS 0).testBit 5 = false) := by
  constructor
  · obtain ⟨x, a, b, f1, f2, ht⟩ := TXPacket_finish_trace p r1
    exact ⟨TXPacket_finish p r1, _, x, a, b, _, by simp [nRF24_TXPacket, h], rfl, ht⟩
  · have hk := sim_wait_keeps _ _ _ hc
    have ha := sim_arm_keeps pBufc nc rc
    have hcsn : r1c.dev.csn = true := hk.1.trans ha.1
    have hw1 : r1c.dev.w1c = true := (hk.2.trans ha.2).trans hw
    have hf := (sim_finish r1c hcsn).1 hw1
    refine ⟨TXPacket_finish simPort r1c, by simp [nRF24_TXPacket, hc], ?_, ?_⟩
    · rw [hf]; exact (w1c_clears _).1
    · rw [hf]; exact (w1c_clears _).2

/-- Witness of C3: an acknowledged packet on one simulated chip, a packet
that exhausts the retransmissions on another. -/
theorem nRF24_TXPacket_writes_back_status_witness :
    waitIRQ simPort 5 (TXPacket_arm simPort demoPayload 3 (Run.init (Chip.reset true 2 0x20)))
      = some (demoAfterWait true 2 0x20) ∧
    waitIRQ simPort 5 (TXPacket_arm simPort demoPayload 3 (Run.init (Chip.reset true 1 0x10)))
      = some (demoAfterWait true 1 0x10) ∧
    (Run.init (Chip.reset true 1 0x10)).dev.w1c = true ∧
    (∃ (out : Nat × Run Chip) (s x a b : Nat) (post : List Ev),
      nRF24_TXPacket simPort 5 demoPayload 3 (Run.init (Chip.reset true 2 0x20)) = some out ∧
      s = (nRF24_ReadReg simPort nRF24_REG_STATUS (CE_L simPort (demoAfterWait true 2 0x20))).1 ∧
      out.2.trace
        = (demoAfterWait true 2 0x20).trace ++
            [Ev.ce false,
             Ev.csn false, Ev.spi nRF24_REG_STATUS x, Ev.spi 0 s, Ev.csn true,
             Ev.csn false, Ev.spi (nRF24_CMD_WREG ||| nRF24_REG_STATUS) a, Ev.spi s b,
               Ev.csn true] ++ post) ∧
    (∃ (outc : Nat × Run Chip),
      nRF24_TXPacket simPort 5 demoPayload 3 (Run.init (Chip.reset true 1 0x10)) = some outc ∧
      (outc.2.dev.regs nRF24_REG_STATUS 0).testBit 4 = false ∧
      (outc.2.dev.regs nRF24_REG_STATUS 0).testBit 5 = false) :=
  ⟨rfl, rfl, rfl,
   nRF24_TXPacket_writes_back_status simPort 5 demoPayload 3
     (Run.init (Chip.reset true 2 0x20)) (demoAfterWait true 2 0x20) rfl
     5 demoPayload 3 (Run.init (Chip.reset true 1 0x10)) (demoAfterWait true 1 0x10) rfl rfl⟩

/-! ## The chip-enable latch -/

@[simp] theorem RWReg_ce (p : Port σ) (reg value : Nat) (r : Run σ) :
    (nRF24_RWReg p reg value r).2.ce = r.ce := rfl

@[simp] theorem ReadReg_ce (p : Port σ) (reg : Nat) (r : Run σ) :
    (nRF24_ReadReg p reg r).2.ce = r.ce := rfl

@[simp] theorem WriteBuf_loop_ce (p : Port σ) (pBuf : Nat → Nat) :
    ∀ (k i : Nat) (r : Run σ), (WriteBuf_loop p k i pBuf r).ce = r.ce := by
  intro k
  induction k with
  | zero => intro i r; rfl
  | succ k ih => intro i r; simp only [WriteBuf_loop]; rw [ih]; rfl

@[simp] theorem WriteBuf_ce (p : Port σ) (reg : Nat) (pBuf : Nat → Nat) (count : Nat)
    (r : Run σ) : (nRF24_WriteBuf p reg pBuf count r).2.ce = r.ce := by
  simp only [nRF24_WriteBuf, CSN_H]
  rw [WriteBuf_loop_ce]
  rfl

/-! ## Transactions -/

/-- One `nRF24_RWReg` is one transaction with one data byte. -/
theorem RWReg_txn (p : Port σ) (reg value : Nat) (r : Run σ) :
    ∃ st x : Nat,
      (nRF24_RWReg p reg value r).2.trace = r.trace ++ txn (reg % 256) st [value % 256] [x] :=
  ⟨_, _, by rw [RWReg_trace]; rfl⟩

/-- One `nRF24_ReadReg` is one transaction with one dummy byte, answered by
the value returned. -/
theorem ReadReg_txn (p : Port σ) (reg : Nat) (r : Run σ) :
    ∃ st : Nat,
      (nRF24_ReadReg p reg r).2.trace
        = r.trace ++ txn (reg % 256) st [0] [(nRF24_ReadReg p reg r).1] :=
  ⟨_, by rw [ReadReg_trace]; rfl⟩

/-- One `nRF24_WriteBuf` is one transaction whose data bytes are the first
`count` bytes behind the pointer. -/
theorem WriteBuf_txn (p : Port σ) (reg : Nat) (pBuf : Nat → Nat) (count : Nat) (r : Run σ) :
    ∃ (st : Nat) (ins : List Nat), ins.length = count % 256 ∧
      (nRF24_WriteBuf p reg pBuf count r).2.trace
        = r.trace ++ txn (reg % 256) st (bufBytes pBuf count) ins := by
  obtain ⟨ins, hl, htr, _⟩ :=
    WriteBuf_loop_spec p pBuf (count % 256) 0 (nRF24_ReadWrite p reg (CSN_L p r)).2
  refine ⟨(nRF24_ReadWrite p reg (CSN_L p r)).1, ins, hl, ?_⟩
  simp only [nRF24_WriteBuf, CSN_H_trace, htr, ReadWrite_trace, CSN_L_trace, txn, bufBytes]
  simp

/-! ## Mode configurator -/

set_option maxRecDepth 100000 in
/-- The shifted and masked delay is the low nibble of the delay, moved to
the high nibble. -/
theorem retr_delay_nibble : ∀ d, d < 256 → (d <<< 4) &&& 0xf0 = (d % 16) * 16 := by
  decide

set_option maxRecDepth 100000 in
/-- The masked count is the low nibble of the count. -/
theorem retr_count_nibble : ∀ c, c < 256 → c &&& 0x0f = c % 16 := by
  decide

set_option maxRecDepth 100000 in
/-- A high nibble and a low nibble are joined by OR as by addition. -/
theorem nibbles_or : ∀ a, a < 16 → ∀ b, b < 16 → (a * 16) ||| b = a * 16 + b := by
  decide

/-- The packed retransmit byte as arithmetic on the two arguments. -/
theorem TXMode_retr_eq (RetrCnt RetrDelay : Nat) :
    TXMode_retr RetrCnt RetrDelay = (RetrDelay % 16) * 16 + RetrCnt % 16 := by
  unfold TXMode_retr
  rw [retr_delay_nibble _ (Nat.mod_lt _ (by decide)),
    retr_count_nibble _ (Nat.mod_lt _ (by decide)),
    nibbles_or _ (Nat.mod_lt _ (by decide)) _ (Nat.mod_lt _ (by decide))]
  omega

/-- Everything `nRF24_TXMode` does, in order. -/
theorem TXMode_trace (p : Port σ)
    (RetrCnt RetrDelay RFChan DataRate TXPower CRC CRCO PWR : Nat)
    (TX_Addr : Nat → Nat) (TX_Addr_Width : Nat) (r : Run σ) :
    ∃ (s1 x1 s2 x2 s3 x3 s4 x4 s5 s6 x6 s7 : Nat) (in5 in7 : List Nat),
      in5.length = TX_Addr_Width % 256 ∧ in7.length = TX_Addr_Width % 256 ∧
      (nRF24_TXMode p RetrCnt RetrDelay RFChan DataRate TXPower CRC CRCO PWR TX_Addr TX_Addr_Width r).trace
        = r.trace ++ [Ev.ce false]
            ++ txn (nRF24_CMD_WREG ||| nRF24_REG_SETUP_RETR) s1 [TXMode_retr RetrCnt RetrDelay] [x1]
            ++ txn (nRF24_CMD_WREG ||| nRF24_REG_RF_SETUP) s2
                [(DataRate % 256) ||| (TXPower % 256)] [x2]
            ++ txn (nRF24_CMD_WREG ||| nRF24_REG_CONFIG) s3
                [(CRC % 256) ||| (CRCO % 256) ||| (PWR % 256) ||| nRF24_PRIM_TX] [x3]
            ++ txn (nRF24_CMD_WREG ||| nRF24_REG_RF_CH) s4 [RFChan % 256] [x4]
            ++ txn (nRF24_CMD_WREG ||| nRF24_REG_TX_ADDR) s5
                (bufBytes TX_Addr TX_Addr_Width) in5
            ++ txn (nRF24_CMD_WREG ||| nRF24_REG_EN_AA) s6 [0x01] [x6]
            ++ txn (nRF24_CMD_WREG ||| nRF24_REG_RX_ADDR_P0) s7
                (bufBytes TX_Addr TX_Addr_Width) in7 ∧
      (nRF24_TXMode p RetrCnt RetrDelay RFChan DataRate TXPower CRC CRCO PWR TX_Addr TX_Addr_Width r).ce = false := by
  have e1 : TXMode_retr RetrCnt RetrDelay % 256 = TXMode_retr RetrCnt RetrDelay := by
    rw [TXMode_retr_eq]; omega
  have hD : DataRate % 256 < 2 ^ 8 := Nat.mod_lt _ (by decide)
  have hT : TXPower % 256 < 2 ^ 8 := Nat.mod_lt _ (by decide)
  have hC : CRC % 256 < 2 ^ 8 := Nat.mod_lt _ (by decide)
  have hO : CRCO % 256 < 2 ^ 8 := Nat.mod_lt _ (by decide)
  have hP : PWR % 256 < 2 ^ 8 := Nat.mod_lt _ (by decide)
  have h0 : nRF24_PRIM_TX < 2 ^ 8 := by decide
  have e2 : ((DataRate % 256) ||| (TXPower % 256)) % 256
      = (DataRate % 256) ||| (TXPower % 256) :=
    Nat.mod_eq_of_lt (Nat.or_lt_two_pow hD hT)
  have e3 : ((CRC % 256) ||| (CRCO % 256) ||| (PWR % 256) ||| nRF24_PRIM_TX) % 256
      = (CRC % 256) ||| (CRCO % 256) ||| (PWR % 256) ||| nRF24_PRIM_TX :=
    Nat.mod_eq_of_lt
      (Nat.or_lt_two_pow (Nat.or_lt_two_pow (Nat.or_lt_two_pow hC hO) hP) h0)
  have c1 : (nRF24_CMD_WREG ||| nRF24_REG_SETUP_RETR) % 256
      = nRF24_CMD_WREG ||| nRF24_REG_SETUP_RETR := by decide
  have c2 : (nRF24_CMD_WREG ||| nRF24_REG_RF_SETUP) % 256
      = nRF24_CMD_WREG ||| nRF24_REG_RF_SETUP := by decide
  have c3 : (nRF24_CMD_WREG ||| nRF24_REG_CONFIG) % 256
      = nRF24_CMD_WREG ||| nRF24_REG_CONFIG := by decide
  have c4 : (nRF24_CMD_WREG ||| nRF24_REG_RF_CH) % 256
      = nRF24_CMD_WREG ||| nRF24_REG_RF_CH := by decide
  have c5 : (nRF24_CMD_WREG ||| nRF24_REG_TX_ADDR) % 256
      = nRF24_CMD_WREG ||| nRF24_REG_TX_ADDR := by decide
  have c6 : (nRF24_CMD_WREG ||| nRF24_REG_EN_AA) % 256
      = nRF24_CMD_WREG ||| nRF24_REG_EN_AA := by decide
  have c7 : (nRF24_CMD_WREG ||| nRF24_REG_RX_ADDR_P0) % 256
      = nRF24_CMD_WREG ||| nRF24_REG_RX_ADDR_P0 := by decide
  obtain ⟨s1, x1, h1⟩ := RWReg_txn p (nRF24_CMD_WREG ||| nRF24_REG_SETUP_RETR)
    (TXMode_retr RetrCnt RetrDelay) (CE_L p r)
  obtain ⟨s2, x2, h2⟩ := RWReg_txn p (nRF24_CMD_WREG ||| nRF24_REG_RF_SETUP)
    ((DataRate % 256) ||| (TXPower % 256))
    (nRF24_RWReg p (nRF24_CMD_WREG ||| nRF24_REG_SETUP_RETR)
      (TXMode_retr RetrCnt RetrDelay) (CE_L p r)).2
  obtain ⟨s3, x3, h3⟩ := RWReg_txn p (nRF24_CMD_WREG ||| nRF24_REG_CONFIG)
    ((CRC % 256) ||| (CRCO % 256) ||| (PWR % 256) ||| nRF24_PRIM_TX)
    (nRF24_RWReg p (nRF24_CMD_WREG ||| nRF24_REG_RF_SETUP)
      ((DataRate % 256) ||| (TXPower % 256))
      (nRF24_RWReg p (nRF24_CMD_WREG ||| nRF24_REG_SETUP_RETR)
        (TXMode_retr RetrCnt RetrDelay) (CE_L p r)).2).2
  obtain ⟨s4, x4, h4⟩ := RWReg_txn p (nRF24_CMD_WREG ||| nRF24_REG_RF_CH) RFChan
    (nRF24_RWReg p (nRF24_CMD_WREG ||| nRF24_REG_CONFIG)
      ((CRC % 256) ||| (CRCO % 256) ||| (PWR % 256) ||| nRF24_PRIM_TX)
      (nRF24_RWReg p (nRF24_CMD_WREG ||| nRF24_REG_RF_SETUP)
        ((DataRate % 256) ||| (TXPower % 256))
        (nRF24_RWReg p (nRF24_CMD_WREG ||| nRF24_REG_SETUP_RETR)
          (TXMode_retr RetrCnt RetrDelay) (CE_L p r)).2).2).2
  obtain ⟨s5, in5, l5, h5⟩ := WriteBuf_txn p (nRF24_CMD_WREG ||| nRF24_REG_TX_ADDR)
    TX_Addr TX_Addr_Width
    (nRF24_SetRFChannel p RFChan
      (nRF24_RWReg p (nRF24_CMD_WREG ||| nRF24_REG_CONFIG)
        ((CRC % 256) ||| (CRCO % 256) ||| (PWR % 256) ||| nRF24_PRIM_TX)
        (nRF24_RWReg p (nRF24_CMD_WREG ||| nRF24_REG_RF_SETUP)
          ((DataRate % 256) ||| (TXPower % 256))
          (nRF24_RWReg p (nRF24_CMD_WREG ||| nRF24_REG_SETUP_RETR)
            (TXMode_retr RetrCnt RetrDelay) (CE_L p r)).2).2).2)
  obtain ⟨s6, x6, h6⟩ := RWReg_txn p (nRF24_CMD_WREG ||| nRF24_REG_EN_AA) 0x01
    (nRF24_WriteBuf p (nRF24_CMD_WREG ||| nRF24_REG_TX_ADDR) TX_Addr TX_Addr_Width
      (nRF24_SetRFChannel p RFChan
        (nRF24_RWReg p (nRF24_CMD_WREG ||| nRF24_REG_CONFIG)
          ((CRC % 256) ||| (CRCO % 256) ||| (PWR % 256) ||| nRF24_PRIM_TX)
          (nRF24_RWReg p (nRF24_CMD_WREG ||| nRF24_REG_RF_SETUP)
            ((DataRate % 256) ||| (TXPower % 256))
            (nRF24_RWReg p (nRF24_CMD_WREG ||| nRF24_REG_SETUP_RETR)
              (TXMode_retr RetrCnt RetrDelay) (CE_L p r)).2).2).2)).2
  obtain ⟨s7, in7, l7, h7⟩ := WriteBuf_txn p (nRF24_CMD_WREG ||| nRF24_REG_RX_ADDR_P0)
    TX_Addr TX_Addr_Width
    (nRF24_RWReg p (nRF24_CMD_WREG ||| nRF24_REG_EN_AA) 0x01
      (nRF24_WriteBuf p (nRF24_CMD_WREG ||| nRF24_REG_TX_ADDR) TX_Addr TX_Addr_Width
        (nRF24_SetRFChannel p RFChan
          (nRF24_RWReg p (nRF24_CMD_WREG ||| nRF24_REG_CONFIG)
            ((CRC % 256) ||| (CRCO % 256) ||| (PWR % 256) ||| nRF24_PRIM_TX)
            (nRF24_RWReg p (nRF24_CMD_WREG ||| nRF24_REG_RF_SETUP)
              ((DataRate % 256) ||| (TXPower % 256))
              (nRF24_RWReg p (nRF24_CMD_WREG ||| nRF24_REG_SETUP_RETR)
                (TXMode_retr RetrCnt RetrDelay) (CE_L p r)).2).2).2)).2).2
  refine ⟨s1, x1, s2, x2, s3, x3, s4, x4, s5, s6, x6, s7, in5, in7, l5, l7, ?_, ?_⟩
  · simp only [nRF24_TXMode]
    rw [h7, h6, h5]
    simp only [nRF24_SetRFChannel]
    rw [h4, h3, h2, h1, CE_L_trace, e1, e2, e3, c1, c2, c3, c4, c5, c6, c7]
  · simp [nRF24_TXMode, nRF24_SetRFChannel, CE_L]

/-- C11: the first transaction of `nRF24_TXMode` writes to SETUP_RETR the
byte `(RetrDelay mod 16) * 16 + (RetrCnt mod 16)`: the delay in the high
nibble, the count in the low nibble, for arbitrary arguments; for arguments
in 0..15 (every such value is some `x mod 16`) this is
`16 * RetrDelay + RetrCnt`, and count 5 with delay 3 gives 0x35.  The high
nibble depends on the delay only and the low nibble on the count only. -/
theorem nRF24_TXMode_retransmit_byte (p : Port σ)
    (RetrCnt RetrDelay RFChan DataRate TXPower CRC CRCO PWR : Nat)
    (TX_Addr : Nat → Nat) (TX_Addr_Width : Nat) (r : Run σ) :
    (∃ (st x : Nat) (rest : List Ev),
      (nRF24_TXMode p RetrCnt RetrDelay RFChan DataRate TXPower CRC CRCO PWR TX_Addr TX_Addr_Width r).trace
        = r.trace ++ [Ev.ce false]
            ++ txn (nRF24_CMD_WREG ||| nRF24_REG_SETUP_RETR) st
                [(RetrDelay % 16) * 16 + RetrCnt % 16] [x]
            ++ rest) ∧
    TXMode_retr RetrCnt RetrDelay = (RetrDelay % 16) * 16 + RetrCnt % 16 ∧
    TXMode_retr (RetrCnt % 16) (RetrDelay % 16) = 16 * (RetrDelay % 16) + RetrCnt % 16 ∧
    TXMode_retr 5 3 = 0x35 ∧
    TXMode_retr RetrCnt RetrDelay / 16 = RetrDelay % 16 ∧
    TXMode_retr RetrCnt RetrDelay % 16 = RetrCnt % 16 := by
  have e := TXMode_retr_eq RetrCnt RetrDelay
  refine ⟨?_, e, ?_, by decide, ?_, ?_⟩
  · obtain ⟨s1, x1, s2, x2, s3, x3, s4, x4, s5, s6, x6, s7, in5, in7, -, -, ht, -⟩ :=
      TXMode_trace p RetrCnt RetrDelay RFChan DataRate TXPower CRC CRCO PWR TX_Addr
        TX_Addr_Width r
    refine ⟨s1, x1,
      txn (nRF24_CMD_WREG ||| nRF24_REG_RF_SETUP) s2 [(DataRate % 256) ||| (TXPower % 256)] [x2]
        ++ txn (nRF24_CMD_WREG ||| nRF24_REG_CONFIG) s3
            [(CRC % 256) ||| (CRCO % 256) ||| (PWR % 256) ||| nRF24_PRIM_TX] [x3]
        ++ txn (nRF24_CMD_WREG ||| nRF24_REG_RF_CH) s4 [RFChan % 256] [x4]
        ++ txn (nRF24_CMD_WREG ||| nRF24_REG_TX_ADDR) s5 (bufBytes TX_Addr TX_Addr_Width) in5
        ++ txn (nRF24_CMD_WREG ||| nRF24_REG_EN_AA) s6 [0x01] [x6]
        ++ txn (nRF24_CMD_WREG ||| nRF24_REG_RX_ADDR_P0) s7
            (bufBytes TX_Addr TX_Addr_Width) in7, ?_⟩
    rw [ht, e]
    simp only [List.append_assoc]
  · rw [TXMode_retr_eq]; omega
  · rw [e]; omega
  · rw [e]; omega

/-- C12: for every argument tuple, `nRF24_TXMode` lowers chip-enable and then
performs exactly seven transactions, in this order: write SETUP_RETR (the
packed retransmit byte), write RF_SETUP (`DataRate | TXPower`), write CONFIG
(`CRC | CRCO | PWR | nRF24_PRIM_TX`), write RF_CH (`RFChan`), buffer write of
the `TX_Addr_Width` address bytes to TX_ADDR, write EN_AA (0x01), buffer
write to RX_ADDR_P0 of the same byte sequence as the one written to TX_ADDR.
Chip-enable is low on return. -/
theorem nRF24_TXMode_seven_transactions (p : Port σ)
    (RetrCnt RetrDelay RFChan DataRate TXPower CRC CRCO PWR : Nat)
    (TX_Addr : Nat → Nat) (TX_Addr_Width : Nat) (r : Run σ) :
    ∃ (s1 x1 s2 x2 s3 x3 s4 x4 s5 s6 x6 s7 : Nat) (in5 in7 : List Nat),
      in5.length = TX_Addr_Width % 256 ∧ in7.length = TX_Addr_Width % 256 ∧
      (nRF24_TXMode p RetrCnt RetrDelay RFChan DataRate TXPower CRC CRCO PWR TX_Addr TX_Addr_Width r).trace
        = r.trace ++ [Ev.ce false]
            ++ txn (nRF24_CMD_WREG ||| nRF24_REG_SETUP_RETR) s1 [TXMode_retr RetrCnt RetrDelay] [x1]
            ++ txn (nRF24_CMD_WREG ||| nRF24_REG_RF_SETUP) s2
                [(DataRate % 256) ||| (TXPower % 256)] [x2]
            ++ txn (nRF24_CMD_WREG ||| nRF24_REG_CONFIG) s3
                [(CRC % 256) ||| (CRCO % 256) ||| (PWR % 256) ||| nRF24_PRIM_TX] [x3]
            ++ txn (nRF24_CMD_WREG ||| nRF24_REG_RF_CH) s4 [RFChan % 256] [x4]
            ++ txn (nRF24_CMD_WREG ||| nRF24_REG_TX_ADDR) s5
                (bufBytes TX_Addr TX_Addr_Width) in5
            ++ txn (nRF24_CMD_WREG ||| nRF24_REG_EN_AA) s6 [0x01] [x6]
            ++ txn (nRF24_CMD_WREG ||| nRF24_REG_RX_ADDR_P0) s7
                (bufBytes TX_Addr TX_Addr_Width) in7 ∧
      (nRF24_TXMode p RetrCnt RetrDelay RFChan DataRate TXPower CRC CRCO PWR TX_Addr TX_Addr_Width r).ce = false :=
  TXMode_trace p RetrCnt RetrDelay RFChan DataRate TXPower CRC CRCO PWR TX_Addr
    TX_Addr_Width r

/-! ## Transmit state machine: the wait loop -/

/-- When the wait loop is left, it has read the interrupt pin high `k` times
and then low once, and it has not touched chip-enable. -/
theorem waitIRQ_trace (p : Port σ) :
    ∀ (fuel : Nat) (r r1 : Run σ), waitIRQ p fuel r = some r1 →
      ∃ k, k < fuel ∧
        r1.trace = r.trace ++ List.replicate k (Ev.irq true) ++ [Ev.irq false] ∧
        r1.ce = r.ce := by
  intro fuel
  induction fuel with
  | zero => intro r r1 h; simp [waitIRQ] at h
  | succ f ih =>
    intro r r1 h
    simp only [waitIRQ] at h
    by_cases hx : (readIRQ p r).1 = true
    · rw [if_pos hx] at h
      obtain ⟨k, hk, ht, hc⟩ := ih _ _ h
      refine ⟨k + 1, by omega, ?_, hc⟩
      rw [ht]
      simp only [readIRQ] at hx
      simp [readIRQ, hx, List.replicate_succ]
    · rw [if_neg hx] at h
      cases h
      refine ⟨0, by omega, ?_, rfl⟩
      simp only [readIRQ] at hx
      simp [readIRQ, hx]

/-- A pin that reads high at every read keeps the wait loop running,
whatever the number of reads allowed. -/
theorem waitIRQ_stuck (p : Port σ) :
    ∀ (fuel : Nat) (r : Run σ),
      (∀ k, (p.irq ((fun d => (p.irq d).2)^[k] r.dev)).1 = true) →
      waitIRQ p fuel r = none := by
  intro fuel
  induction fuel with
  | zero => intro r _; rfl
  | succ f ih =>
    intro r h
    have h0 : (readIRQ p r).1 = true := h 0
    simp only [waitIRQ, h0, if_true]
    apply ih
    intro k
    exact h (k + 1)

/-- C15: if the interrupt pin reads high at every read made after the packet
is armed, `nRF24_TXPacket` does not return: whatever bound `fuel` is put on
the number of reads of the pin, the wait loop is still running when the
bound is reached and no outcome value is produced. -/
theorem nRF24_TXPacket_never_returns (p : Port σ) (pBuf : Nat → Nat) (n : Nat) (r : Run σ)
    (h : ∀ k, (p.irq ((fun d => (p.irq d).2)^[k] (TXPacket_arm p pBuf n r).dev)).1 = true) :
    ∀ fuel, nRF24_TXPacket p fuel pBuf n r = none := by
  intro fuel
  simp [nRF24_TXPacket, waitIRQ_stuck p fuel _ h]

/-- Witness of C15: the simulated chip whose interrupt line never asserts. -/
theorem nRF24_TXPacket_never_returns_witness :
    (∀ k, (stuckPort.irq ((fun d => (stuckPort.irq d).2)^[k]
        (TXPacket_arm stuckPort demoPayload 3 (Run.init (Chip.reset true 0 0x20))).dev)).1
          = true) ∧
    ∀ fuel, nRF24_TXPacket stuckPort fuel demoPayload 3
        (Run.init (Chip.reset true 0 0x20)) = none :=
  ⟨fun _ => rfl,
   nRF24_TXPacket_never_returns stuckPort demoPayload 3 (Run.init (Chip.reset true 0 0x20))
     (fun _ => rfl)⟩

/-! ## Transmit state machine: the whole run -/

/-- Lines 211-213: chip-enable low, the payload transaction, chip-enable
high. -/
theorem TXPacket_arm_trace (p : Port σ) (pBuf : Nat → Nat) (n : Nat) (r : Run σ) :
    ∃ (st : Nat) (ins : List Nat), ins.length = n % 256 ∧
      (TXPacket_arm p pBuf n r).trace
        = r.trace ++ [Ev.ce false] ++ txn nRF24_CMD_W_TX_PAYLOAD st (bufBytes pBuf n) ins
            ++ [Ev.ce true] := by
  obtain ⟨st, ins, hl, ht⟩ := WriteBuf_txn p nRF24_CMD_W_TX_PAYLOAD pBuf n (CE_L p r)
  have e : nRF24_CMD_W_TX_PAYLOAD % 256 = nRF24_CMD_W_TX_PAYLOAD := by decide
  refine ⟨st, ins, hl, ?_⟩
  simp only [TXPacket_arm, CE_H_trace]
  rw [ht, CE_L_trace, e]

/-- Chip-enable is low after lines 216-231. -/
theorem TXPacket_finish_ce (p : Port σ) (r1 : Run σ) : (TXPacket_finish p r1).2.ce = false := by
  simp only [TXPacket_finish]
  split_ifs <;> simp [CE_L]

/-- Everything a run of `nRF24_TXPacket` that leaves the wait loop does, in
order. -/
theorem TXPacket_trace (p : Port σ) (fuel : Nat) (pBuf : Nat → Nat) (n : Nat)
    (r r1 : Run σ) (h : waitIRQ p fuel (TXPacket_arm p pBuf n r) = some r1) :
    ∃ (out : Nat × Run σ) (st k s x a b f1 f2 : Nat) (ins : List Nat),
      nRF24_TXPacket p fuel pBuf n r = some out ∧
      s = (nRF24_ReadReg p nRF24_REG_STATUS (CE_L p r1)).1 ∧
      ins.length = n % 256 ∧ k < fuel ∧
      out.2.trace
        = r.trace ++ [Ev.ce false]
            ++ txn nRF24_CMD_W_TX_PAYLOAD st (bufBytes pBuf n) ins ++ [Ev.ce true]
            ++ List.replicate k (Ev.irq true) ++ [Ev.irq false]
            ++ [Ev.ce false]
            ++ txn nRF24_REG_STATUS x [0] [s]
            ++ txn (nRF24_CMD_WREG ||| nRF24_REG_STATUS) a [s] [b]
            ++ (if s.testBit 4 = true ∨ s.testBit 5 = true then
                txn nRF24_CMD_FLUSH_TX f1 [0xFF] [f2]
              else []) ∧
      out.2.ce = false := by
  obtain ⟨st, ins, hl, ha⟩ := TXPacket_arm_trace p pBuf n r
  obtain ⟨k, hk, hw, -⟩ := waitIRQ_trace p fuel _ _ h
  obtain ⟨x, a, b, f1, f2, hf⟩ := TXPacket_finish_trace p r1
  refine ⟨TXPacket_finish p r1, st, k, _, x, a, b, f1, f2, ins,
    by simp [nRF24_TXPacket, h], rfl, hl, hk, ?_, TXPacket_finish_ce p r1⟩
  rw [hf, hw, ha]
  simp [txn]

/-- C16: in every run of `nRF24_TXPacket(pBuf, n)` that leaves the wait loop
(and so returns), the first transaction has the command byte
`nRF24_CMD_W_TX_PAYLOAD` itself, followed by the `n` payload bytes in order;
chip-enable is driven low before it, is driven high exactly once, right
after it, is driven low again before the STATUS register is read, and is low
on return; between the rise and the fall of chip-enable the only actions are
reads of the interrupt pin, so no byte is exchanged while chip-enable is
high. -/
theorem nRF24_TXPacket_chip_enable_sequence (p : Port σ) (fuel : Nat) (pBuf : Nat → Nat)
    (n : Nat) (r r1 : Run σ) (h : waitIRQ p fuel (TXPacket_arm p pBuf n r) = some r1) :
    ∃ (out : Nat × Run σ) (st k s x a b f1 f2 : Nat) (ins : List Nat),
      nRF24_TXPacket p fuel pBuf n r = some out ∧
      s = (nRF24_ReadReg p nRF24_REG_STATUS (CE_L p r1)).1 ∧
      ins.length = n % 256 ∧ k < fuel ∧
      out.2.trace
        = r.trace ++ [Ev.ce false]
            ++ txn nRF24_CMD_W_TX_PAYLOAD st (bufBytes pBuf n) ins ++ [Ev.ce true]
            ++ List.replicate k (Ev.irq true) ++ [Ev.irq false]
            ++ [Ev.ce false]
            ++ txn nRF24_REG_STATUS x [0] [s]
            ++ txn (nRF24_CMD_WREG ||| nRF24_REG_STATUS) a [s] [b]
            ++ (if s.testBit 4 = true ∨ s.testBit 5 = true then
                txn nRF24_CMD_FLUSH_TX f1 [0xFF] [f2]
              else []) ∧
      out.2.ce = false :=
  TXPacket_trace p fuel pBuf n r r1 h

/-- Witness of C16: an acknowledged packet on the simulated chip. -/
theorem nRF24_TXPacket_chip_enable_sequence_witness :
    waitIRQ simPort 5 (TXPacket_arm simPort demoPayload 3 (Run.init (Chip.reset true 2 0x20)))
      = some (demoAfterWait true 2 0x20) ∧
    ∃ (out : Nat × Run Chip) (st k s x a b f1 f2 : Nat) (ins : List Nat),
      nRF24_TXPacket simPort 5 demoPayload 3 (Run.init (Chip.reset true 2 0x20)) = some out ∧
      s = (nRF24_ReadReg simPort nRF24_REG_STATUS (CE_L simPort (demoAfterWait true 2 0x20))).1 ∧
      ins.length = 3 % 256 ∧ k < 5 ∧
      out.2.trace
        = (Run.init (Chip.reset true 2 0x20)).trace ++ [Ev.ce false]
            ++ txn nRF24_CMD_W_TX_PAYLOAD st (bufBytes demoPayload 3) ins ++ [Ev.ce true]
            ++ List.replicate k (Ev.irq true) ++ [Ev.irq false]
            ++ [Ev.ce false]
            ++ txn nRF24_REG_STATUS x [0] [s]
            ++ txn (nRF24_CMD_WREG ||| nRF24_REG_STATUS) a [s] [b]
            ++ (if s.testBit 4 = true ∨ s.testBit 5 = true then
                txn nRF24_CMD_FLUSH_TX f1 [0xFF] [f2]
              else []) ∧
      out.2.ce = false :=
  ⟨rfl, nRF24_TXPacket_chip_enable_sequence simPort 5 demoPayload 3 (Run.init (Chip.reset true 2 0x20))
    (demoAfterWait true 2 0x20) rfl⟩

/-- C19: in every run of `nRF24_TXPacket` that leaves the wait loop, the
flush of the TX FIFO, when there is one, is the last transaction of the run,
placed after the write-back to STATUS; it is one transaction bracketed by
chip-select with exactly two exchanges, sending `nRF24_CMD_FLUSH_TX` itself
and then 0xFF; and none of the transactions before it has the flush command
as its command byte. -/
theorem nRF24_TXPacket_flush_framing (p : Port σ) (fuel : Nat) (pBuf : Nat → Nat)
    (n : Nat) (r r1 : Run σ) (h : waitIRQ p fuel (TXPacket_arm p pBuf n r) = some r1) :
    ∃ (out : Nat × Run σ) (st k s x a b f1 f2 : Nat) (ins : List Nat),
      nRF24_TXPacket p fuel pBuf n r = some out ∧
      s = (nRF24_ReadReg p nRF24_REG_STATUS (CE_L p r1)).1 ∧
      out.2.trace
        = r.trace ++ [Ev.ce false]
            ++ txn nRF24_CMD_W_TX_PAYLOAD st (bufBytes pBuf n) ins ++ [Ev.ce true]
            ++ List.replicate k (Ev.irq true) ++ [Ev.irq false]
            ++ [Ev.ce false]
            ++ txn nRF24_REG_STATUS x [0] [s]
            ++ txn (nRF24_CMD_WREG ||| nRF24_REG_STATUS) a [s] [b]
            ++ (if s.testBit 4 = true ∨ s.testBit 5 = true then
                txn nRF24_CMD_FLUSH_TX f1 [0xFF] [f2]
              else []) ∧
      txn nRF24_CMD_FLUSH_TX f1 [0xFF] [f2]
        = [Ev.csn false, Ev.spi nRF24_CMD_FLUSH_TX f1, Ev.spi 0xFF f2, Ev.csn true] ∧
      spiOut (txn nRF24_CMD_FLUSH_TX f1 [0xFF] [f2]) = [nRF24_CMD_FLUSH_TX, 0xFF] ∧
      nRF24_CMD_W_TX_PAYLOAD ≠ nRF24_CMD_FLUSH_TX ∧
      nRF24_REG_STATUS ≠ nRF24_CMD_FLUSH_TX ∧
      (nRF24_CMD_WREG ||| nRF24_REG_STATUS) ≠ nRF24_CMD_FLUSH_TX := by
  obtain ⟨out, st, k, s, x, a, b, f1, f2, ins, ho, hs, -, -, ht, -⟩ :=
    TXPacket_trace p fuel pBuf n r r1 h
  exact ⟨out, st, k, s, x, a, b, f1, f2, ins, ho, hs, ht, rfl, rfl,
    by decide, by decide, by decide⟩

/-- Witness of C19: a packet that exhausts the retransmissions on the
simulated chip. -/
theorem nRF24_TXPacket_flush_framing_witness :
    waitIRQ simPort 5 (TXPacket_arm simPort demoPayload 3 (Run.init (Chip.reset true 1 0x10)))
      = some (demoAfterWait true 1 0x10) ∧
    ∃ (out : Nat × Run Chip) (st k s x a b f1 f2 : Nat) (ins : List Nat),
      nRF24_TXPacket simPort 5 demoPayload 3 (Run.init (Chip.reset true 1 0x10)) = some out ∧
      s = (nRF24_ReadReg simPort nRF24_REG_STATUS (CE_L simPort (demoAfterWait true 1 0x10))).1 ∧
      out.2.trace
        = (Run.init (Chip.reset true 1 0x10)).trace ++ [Ev.ce false]
            ++ txn nRF24_CMD_W_TX_PAYLOAD st (bufBytes demoPayload 3) ins ++ [Ev.ce true]
            ++ List.replicate k (Ev.irq true) ++ [Ev.irq false]
            ++ [Ev.ce false]
            ++ txn nRF24_REG_STATUS x [0] [s]
            ++ txn (nRF24_CMD_WREG ||| nRF24_REG_STATUS) a [s] [b]
            ++ (if s.testBit 4 = true ∨ s.testBit 5 = true then
                txn nRF24_CMD_FLUSH_TX f1 [0xFF] [f2]
              else []) ∧
      txn nRF24_CMD_FLUSH_TX f1 [0xFF] [f2]
        = [Ev.csn false, Ev.spi nRF24_CMD_FLUSH_TX f1, Ev.spi 0xFF f2, Ev.csn true] ∧
      spiOut (txn nRF24_CMD_FLUSH_TX f1 [0xFF] [f2]) = [nRF24_CMD_FLUSH_TX, 0xFF] ∧
      nRF24_CMD_W_TX_PAYLOAD ≠ nRF24_CMD_FLUSH_TX ∧
      nRF24_REG_STATUS ≠ nRF24_CMD_FLUSH_TX ∧
      (nRF24_CMD_WREG ||| nRF24_REG_STATUS) ≠ nRF24_CMD_FLUSH_TX :=
  ⟨rfl, nRF24_TXPacket_flush_framing simPort 5 demoPayload 3 (Run.init (Chip.reset true 1 0x10))
    (demoAfterWait true 1 0x10) rfl⟩

/-! ## Register transactions on the simulated chip -/

/-- Decoding of the command bytes `addr` and `nRF24_CMD_WREG | addr` for
every 5-bit register address. -/
theorem reg_decode : ∀ addr, addr < 32 →
    (nRF24_CMD_WREG ||| addr) % 256 / 32 = 1 ∧ (nRF24_CMD_WREG ||| addr) % 256 % 32 = addr ∧
    (nRF24_CMD_WREG ||| addr) % 256 ≠ nRF24_CMD_FLUSH_TX := by
  decide

/-- `nRF24_ReadReg` on an unselected simulated chip returns byte 0 of the
register and changes neither the registers nor the FIFO. -/
theorem sim_ReadReg (addr : Nat) (r : Run Chip) (ha : addr < 32) (hcsn : r.dev.csn = true) :
    (nRF24_ReadReg simPort addr r).1 = r.dev.regs addr 0 % 256 ∧
    (nRF24_ReadReg simPort addr r).2.dev.regs = r.dev.regs ∧
    (nRF24_ReadReg simPort addr r).2.dev.txFifo = r.dev.txFifo ∧
    (nRF24_ReadReg simPort addr r).2.dev.csn = true ∧
    (nRF24_ReadReg simPort addr r).2.dev.w1c = r.dev.w1c := by
  obtain ⟨⟨regs, fifo, csn, ce, cmd, idx, w1c, lat, outc⟩, rc, re, tr⟩ := r
  simp only at hcsn
  subst hcsn
  have e0 : addr % 256 = addr := by omega
  have e1 : addr / 32 = 0 := by omega
  have e2 : addr % 32 = addr := by omega
  have e3 : addr ≠ nRF24_CMD_FLUSH_TX := by simp only [nRF24_CMD_FLUSH_TX]; omega
  simp [nRF24_ReadReg, nRF24_ReadWrite, CSN_L, CSN_H, simPort, Chip.spi, e0, e1, e2, e3]

/-- `nRF24_RWReg` with the write-register opcode on an unselected simulated
chip stores the byte in byte 0 of the register and changes nothing else. -/
theorem sim_RWReg (addr v : Nat) (r : Run Chip) (ha : addr < 32) (hcsn : r.dev.csn = true) :
    (nRF24_RWReg simPort (nRF24_CMD_WREG ||| addr) v r).2.dev.regs
      = r.dev.write addr 0 (v % 256) ∧
    (nRF24_RWReg simPort (nRF24_CMD_WREG ||| addr) v r).2.dev.txFifo = r.dev.txFifo ∧
    (nRF24_RWReg simPort (nRF24_CMD_WREG ||| addr) v r).2.dev.csn = true ∧
    (nRF24_RWReg simPort (nRF24_CMD_WREG ||| addr) v r).2.dev.w1c = r.dev.w1c := by
  obtain ⟨d1, d2, d3⟩ := reg_decode addr ha
  obtain ⟨⟨regs, fifo, csn, ce, cmd, idx, w1c, lat, outc⟩, rc, re, tr⟩ := r
  simp only at hcsn
  subst hcsn
  simp [nRF24_RWReg, nRF24_ReadWrite, CSN_L, CSN_H, simPort, Chip.spi, d1, d2, d3]
  rfl

/-- A write to a register other than STATUS stores the byte. -/
theorem write_same (c : Chip) (a i v : Nat) (ha : a ≠ nRF24_REG_STATUS) :
    c.write a i v a i = v := by
  simp [Chip.write, ha]

/-- A write leaves every other cell of the register file alone. -/
theorem write_other (c : Chip) (a i v a1 i1 : Nat) (h : ¬ (a1 = a ∧ i1 = i)) :
    c.write a i v a1 i1 = c.regs a1 i1 := by
  simp only [Chip.write]
  rw [if_neg h]

/-! ## Power controller on the simulated chip -/

/-- `nRF24_PowerDown` on an unselected simulated chip: one write to CONFIG of
the byte read from it, with bit 1 masked off. -/
theorem sim_PowerDown (r : Run Chip) (hcsn : r.dev.csn = true) :
    (nRF24_PowerDown simPort r).dev.regs
      = r.dev.write nRF24_REG_CONFIG 0 ((r.dev.regs nRF24_REG_CONFIG 0 % 256 &&& 0xFD) % 256) ∧
    (nRF24_PowerDown simPort r).dev.csn = true := by
  have h0 : (CE_L simPort r).dev.csn = true := hcsn
  obtain ⟨v1, g1, -, c1, w1⟩ := sim_ReadReg nRF24_REG_CONFIG (CE_L simPort r) (by decide) h0
  obtain ⟨g2, -, c2, -⟩ := sim_RWReg nRF24_REG_CONFIG
    ((nRF24_ReadReg simPort nRF24_REG_CONFIG (CE_L simPort r)).1 &&& 0xFD)
    (nRF24_ReadReg simPort nRF24_REG_CONFIG (CE_L simPort r)).2 (by decide) c1
  refine ⟨?_, c2⟩
  simp only [nRF24_PowerDown]
  rw [g2, v1]
  funext a1 i1
  simp only [Chip.write, g1, w1]
  rfl

/-- `nRF24_Wake` on an unselected simulated chip: one write to CONFIG of the
byte read from it, with bit 1 set. -/
theorem sim_Wake (r : Run Chip) (hcsn : r.dev.csn = true) :
    (nRF24_Wake simPort r).dev.regs
      = r.dev.write nRF24_REG_CONFIG 0
          ((r.dev.regs nRF24_REG_CONFIG 0 % 256 ||| (1 <<< 1)) % 256) ∧
    (nRF24_Wake simPort r).dev.csn = true := by
  obtain ⟨v1, g1, -, c1, w1⟩ := sim_ReadReg nRF24_REG_CONFIG r (by decide) hcsn
  obtain ⟨g2, -, c2, -⟩ := sim_RWReg nRF24_REG_CONFIG
    ((nRF24_ReadReg simPort nRF24_REG_CONFIG r).1 ||| (1 <<< 1))
    (nRF24_ReadReg simPort nRF24_REG_CONFIG r).2 (by decide) c1
  refine ⟨?_, c2⟩
  simp only [nRF24_Wake]
  rw [g2, v1]
  funext a1 i1
  simp only [Chip.write, g1, w1]

/-- `nRF24_SetTXPower` on an unselected simulated chip: one write to RF_SETUP
of the byte read from it, with the power field replaced. -/
theorem sim_SetTXPower (TXPower : Nat) (r : Run Chip) (hcsn : r.dev.csn = true) :
    (nRF24_SetTXPower simPort TXPower r).dev.regs
      = r.dev.write nRF24_REG_RF_SETUP 0
          (((r.dev.regs nRF24_REG_RF_SETUP 0 % 256 &&& 0xf9) ||| (TXPower % 256)) % 256) ∧
    (nRF24_SetTXPower simPort TXPower r).dev.csn = true := by
  obtain ⟨v1, g1, -, c1, w1⟩ := sim_ReadReg nRF24_REG_RF_SETUP r (by decide) hcsn
  obtain ⟨g2, -, c2, -⟩ := sim_RWReg nRF24_REG_RF_SETUP
    (((nRF24_ReadReg simPort nRF24_REG_RF_SETUP r).1 &&& 0xf9) ||| (TXPower % 256))
    (nRF24_ReadReg simPort nRF24_REG_RF_SETUP r).2 (by decide) c1
  refine ⟨?_, c2⟩
  simp only [nRF24_SetTXPower]
  rw [g2, v1]
  funext a1 i1
  simp only [Chip.write, g1, w1]

set_option maxRecDepth 100000 in
/-- The bytes written to CONFIG by `nRF24_PowerDown` and by a following
`nRF24_Wake`, for every byte found in the register. -/
theorem config_bytes : ∀ x, x < 256 →
    (x % 256 &&& 0xFD) % 256 = x &&& 0xFD ∧
    ((x &&& 0xFD) % 256 ||| (1 <<< 1)) % 256 = x ||| 0x02 := by
  decide

set_option maxRecDepth 100000 in
/-- C13, counterexample: on the configured simulated chip left selected by
`nRF24_Check` (chip-select low), CONFIG holds 0x0E; after `nRF24_PowerDown`
it holds 0x00, not 0x0C, and after the following `nRF24_Wake` it holds 0x02,
not 0x0E: bits 2 and 3 are lost. -/
theorem nRF24_PowerDown_Wake_on_selected_chip :
    (demoSelected.dev.csn, demoSelected.dev.regs nRF24_REG_CONFIG 0,
      (nRF24_PowerDown simPort demoSelected).dev.regs nRF24_REG_CONFIG 0,
      (nRF24_Wake simPort (nRF24_PowerDown simPort demoSelected)).dev.regs nRF24_REG_CONFIG 0)
      = (false, 0x0E, 0x00, 0x02) := by
  decide

/-- C13, amended: on the simulated chip with chip-select high at the start
and CONFIG holding a byte, after `nRF24_PowerDown` the CONFIG register is its
old value with bit 1 cleared; after a following `nRF24_Wake` it is the old value with bit 1 set;
across the two calls every CONFIG bit other than bit 1 and every register
cell other than CONFIG keeps its value (the latter already after
`nRF24_PowerDown`). -/
theorem nRF24_PowerDown_Wake_config (r : Run Chip) (hcsn : r.dev.csn = true)
    (hbyte : r.dev.regs nRF24_REG_CONFIG 0 < 256) :
    (nRF24_PowerDown simPort r).dev.regs nRF24_REG_CONFIG 0
      = r.dev.regs nRF24_REG_CONFIG 0 &&& 0xFD ∧
    ((nRF24_PowerDown simPort r).dev.regs nRF24_REG_CONFIG 0).testBit 1 = false ∧
    (nRF24_Wake simPort (nRF24_PowerDown simPort r)).dev.regs nRF24_REG_CONFIG 0
      = r.dev.regs nRF24_REG_CONFIG 0 ||| 0x02 ∧
    ((nRF24_Wake simPort (nRF24_PowerDown simPort r)).dev.regs nRF24_REG_CONFIG 0).testBit 1
      = true ∧
    (∀ k, k ≠ 1 →
      ((nRF24_Wake simPort (nRF24_PowerDown simPort r)).dev.regs nRF24_REG_CONFIG 0).testBit k
        = (r.dev.regs nRF24_REG_CONFIG 0).testBit k) ∧
    (∀ a i, ¬ (a = nRF24_REG_CONFIG ∧ i = 0) →
      (nRF24_PowerDown simPort r).dev.regs a i = r.dev.regs a i ∧
      (nRF24_Wake simPort (nRF24_PowerDown simPort r)).dev.regs a i = r.dev.regs a i) := by
  obtain ⟨b1, b2⟩ := config_bytes _ hbyte
  obtain ⟨g1, c1⟩ := sim_PowerDown r hcsn
  obtain ⟨g2, -⟩ := sim_Wake (nRF24_PowerDown simPort r) c1
  have hne : nRF24_REG_CONFIG ≠ nRF24_REG_STATUS := by decide
  have v1 : (nRF24_PowerDown simPort r).dev.regs nRF24_REG_CONFIG 0
      = r.dev.regs nRF24_REG_CONFIG 0 &&& 0xFD := by
    rw [g1, write_same _ _ _ _ hne, b1]
  have v2 : (nRF24_Wake simPort (nRF24_PowerDown simPort r)).dev.regs nRF24_REG_CONFIG 0
      = r.dev.regs nRF24_REG_CONFIG 0 ||| 0x02 := by
    rw [g2, write_same _ _ _ _ hne, v1, b2]
  have t1 : Nat.testBit 0xFD 1 = false := by decide
  have t2 : Nat.testBit 0x02 1 = true := by decide
  refine ⟨v1, ?_, v2, ?_, ?_, ?_⟩
  · rw [v1, Nat.testBit_and, t1]; simp
  · rw [v2, Nat.testBit_or, t2]; simp
  · intro k hk
    have e : (0x02 : Nat) = 2 ^ 1 := by norm_num
    rw [v2, Nat.testBit_or, e, Nat.testBit_two_pow]
    simp [Ne.symm hk]
  · intro a i h
    have w1 : (nRF24_PowerDown simPort r).dev.regs a i = r.dev.regs a i := by
      rw [g1, write_other _ _ _ _ _ _ h]
    refine ⟨w1, ?_⟩
    rw [g2, write_other _ _ _ _ _ _ h, w1]

/-- Witness of C13 (amended): the configured simulated chip, CONFIG 0x0E. -/
theorem nRF24_PowerDown_Wake_config_witness :
    demoConfigured.dev.csn = true ∧
    demoConfigured.dev.regs nRF24_REG_CONFIG 0 < 256 ∧
    (nRF24_PowerDown simPort demoConfigured).dev.regs nRF24_REG_CONFIG 0
      = demoConfigured.dev.regs nRF24_REG_CONFIG 0 &&& 0xFD ∧
    ((nRF24_PowerDown simPort demoConfigured).dev.regs nRF24_REG_CONFIG 0).testBit 1 = false ∧
    (nRF24_Wake simPort (nRF24_PowerDown simPort demoConfigured)).dev.regs nRF24_REG_CONFIG 0
      = demoConfigured.dev.regs nRF24_REG_CONFIG 0 ||| 0x02 ∧
    ((nRF24_Wake simPort (nRF24_PowerDown simPort demoConfigured)).dev.regs nRF24_REG_CONFIG 0).testBit 1
      = true ∧
    (∀ k, k ≠ 1 →
      ((nRF24_Wake simPort (nRF24_PowerDown simPort demoConfigured)).dev.regs nRF24_REG_CONFIG 0).testBit k
        = (demoConfigured.dev.regs nRF24_REG_CONFIG 0).testBit k) ∧
    (∀ a i, ¬ (a = nRF24_REG_CONFIG ∧ i = 0) →
      (nRF24_PowerDown simPort demoConfigured).dev.regs a i = demoConfigured.dev.regs a i ∧
      (nRF24_Wake simPort (nRF24_PowerDown simPort demoConfigured)).dev.regs a i = demoConfigured.dev.regs a i) :=
  ⟨rfl, by decide,
   nRF24_PowerDown_Wake_config demoConfigured rfl (by decide)⟩

/-! ## TX power on the simulated chip -/

set_option maxRecDepth 100000 in
/-- A byte whose set bits lie in the power field (bits 1..2) is below 8. -/
theorem power_field_lt : ∀ p, p < 256 → p &&& 0xF9 = 0 → p < 8 := by
  decide

set_option maxRecDepth 1000000 in
/-- The byte written to RF_SETUP by `nRF24_SetTXPower`, for every byte found
in the register and every power level within the power field. -/
theorem rf_setup_bytes : ∀ p, p < 8 → p &&& 0xF9 = 0 → ∀ x, x < 256 →
    ((x % 256 &&& 0xf9) ||| (p % 256)) % 256 = (x &&& 0xF9) ||| p ∧
    ((x &&& 0xF9) ||| p) &&& 0x06 = p ∧
    ((x &&& 0xF9) ||| p) &&& 0xF9 = x &&& 0xF9 ∧
    ((x &&& 0xF9) ||| p) < 256 := by
  decide

set_option maxRecDepth 100000 in
/-- C14, counterexample: on the configured simulated chip left selected by
`nRF24_Check` (chip-select low), RF_SETUP holds 0x0E; after
`nRF24_SetTXPower(0x02)` it holds 0x02, not 0x0A: the data-rate bit 3 is
lost. -/
theorem nRF24_SetTXPower_on_selected_chip :
    (demoSelected.dev.csn, demoSelected.dev.regs nRF24_REG_RF_SETUP 0,
      (nRF24_SetTXPower simPort 0x02 demoSelected).dev.regs nRF24_REG_RF_SETUP 0)
      = (false, 0x0E, 0x02) := by
  decide

/-- C14, amended: on the simulated chip with chip-select high at the start
and RF_SETUP holding the byte `r`, for every power level `TXPower` whose set bits lie within bits 1..2,
`nRF24_SetTXPower` leaves RF_SETUP equal to `(r AND 0xF9) OR TXPower`: the
power field equals `TXPower`, every other bit of RF_SETUP keeps its old
value, and no other register cell changes. -/
theorem nRF24_SetTXPower_replaces_power_field (TXPower : Nat) (r : Run Chip)
    (hcsn : r.dev.csn = true) (hbyte : r.dev.regs nRF24_REG_RF_SETUP 0 < 256)
    (hp : TXPower < 256) (hfield : TXPower &&& 0xF9 = 0) :
    (nRF24_SetTXPower simPort TXPower r).dev.regs nRF24_REG_RF_SETUP 0
      = (r.dev.regs nRF24_REG_RF_SETUP 0 &&& 0xF9) ||| TXPower ∧
    (nRF24_SetTXPower simPort TXPower r).dev.regs nRF24_REG_RF_SETUP 0 &&& 0x06 = TXPower ∧
    (nRF24_SetTXPower simPort TXPower r).dev.regs nRF24_REG_RF_SETUP 0 &&& 0xF9
      = r.dev.regs nRF24_REG_RF_SETUP 0 &&& 0xF9 ∧
    (∀ a i, ¬ (a = nRF24_REG_RF_SETUP ∧ i = 0) →
      (nRF24_SetTXPower simPort TXPower r).dev.regs a i = r.dev.regs a i) := by
  obtain ⟨b1, b2, b3, -⟩ :=
    rf_setup_bytes TXPower (power_field_lt _ hp hfield) hfield _ hbyte
  obtain ⟨g1, -⟩ := sim_SetTXPower TXPower r hcsn
  have hne : nRF24_REG_RF_SETUP ≠ nRF24_REG_STATUS := by decide
  have v1 : (nRF24_SetTXPower simPort TXPower r).dev.regs nRF24_REG_RF_SETUP 0
      = (r.dev.regs nRF24_REG_RF_SETUP 0 &&& 0xF9) ||| TXPower := by
    rw [g1, write_same _ _ _ _ hne, b1]
  refine ⟨v1, ?_, ?_, ?_⟩
  · rw [v1, b2]
  · rw [v1, b3]
  · intro a i h
    rw [g1, write_other _ _ _ _ _ _ h]

/-- Witness of C14 (amended): the power level 0x02 on the configured
simulated chip, RF_SETUP 0x0E. -/
theorem nRF24_SetTXPower_replaces_power_field_witness :
    demoConfigured.dev.csn = true ∧
    demoConfigured.dev.regs nRF24_REG_RF_SETUP 0 < 256 ∧
    0x02 < 256 ∧ 0x02 &&& 0xF9 = 0 ∧
    (nRF24_SetTXPower simPort 0x02 demoConfigured).dev.regs nRF24_REG_RF_SETUP 0
      = (demoConfigured.dev.regs nRF24_REG_RF_SETUP 0 &&& 0xF9) ||| 0x02 ∧
    (nRF24_SetTXPower simPort 0x02 demoConfigured).dev.regs nRF24_REG_RF_SETUP 0 &&& 0x06
      = 0x02 ∧
    (nRF24_SetTXPower simPort 0x02 demoConfigured).dev.regs nRF24_REG_RF_SETUP 0 &&& 0xF9
      = demoConfigured.dev.regs nRF24_REG_RF_SETUP 0 &&& 0xF9 ∧
    (∀ a i, ¬ (a = nRF24_REG_RF_SETUP ∧ i = 0) →
      (nRF24_SetTXPower simPort 0x02 demoConfigured).dev.regs a i = demoConfigured.dev.regs a i) :=
  ⟨rfl, by decide, by decide, by decide,
   nRF24_SetTXPower_replaces_power_field 0x02 demoConfigured rfl (by decide) (by decide)
     (by decide)⟩

/-- `nRF24_ReadReg` leaves the simulated chip unselected, whatever its state
at the start. -/
theorem sim_ReadReg_csn (addr : Nat) (r : Run Chip) :
    (nRF24_ReadReg simPort addr r).2.dev.csn = true :=
  (sim_csn_keeps true _).1

/-- `nRF24_SetTXPower` on the simulated chip in any state, selected or not:
one write to RF_SETUP of the byte that its `nRF24_ReadReg` returned, with the
power field replaced, on top of the register file that this read left. -/
theorem sim_SetTXPower_any (TXPower : Nat) (r : Run Chip) :
    (nRF24_SetTXPower simPort TXPower r).dev.regs
      = (nRF24_ReadReg simPort nRF24_REG_RF_SETUP r).2.dev.write nRF24_REG_RF_SETUP 0
          ((((nRF24_ReadReg simPort nRF24_REG_RF_SETUP r).1 &&& 0xf9)
            ||| (TXPower % 256)) % 256) ∧
    (nRF24_SetTXPower simPort TXPower r).dev.csn = true := by
  obtain ⟨g2, -, c2, -⟩ := sim_RWReg nRF24_REG_RF_SETUP
    (((nRF24_ReadReg simPort nRF24_REG_RF_SETUP r).1 &&& 0xf9) ||| (TXPower % 256))
    (nRF24_ReadReg simPort nRF24_REG_RF_SETUP r).2 (by decide)
    (sim_ReadReg_csn nRF24_REG_RF_SETUP r)
  exact ⟨g2, c2⟩

/-- C18: on the simulated chip in any state (any register contents, the chip
selected or not), for all power levels `a` and `b` within bits 1..2,
`nRF24_SetTXPower(a)` followed by `nRF24_SetTXPower(b)` leaves the same
register contents as `nRF24_SetTXPower(b)` alone; in particular calling
`nRF24_SetTXPower(b)` twice leaves the same register contents as calling it
once. -/
theorem nRF24_SetTXPower_last_call_wins (a b : Nat) (r : Run Chip)
    (ha : a < 256) (hafield : a &&& 0xF9 = 0) (hb : b < 256) (hbfield : b &&& 0xF9 = 0) :
    (∀ x i, (nRF24_SetTXPower simPort b (nRF24_SetTXPower simPort a r)).dev.regs x i
      = (nRF24_SetTXPower simPort b r).dev.regs x i) ∧
    (∀ x i, (nRF24_SetTXPower simPort b (nRF24_SetTXPower simPort b r)).dev.regs x i
      = (nRF24_SetTXPower simPort b r).dev.regs x i) := by
  have hy : (nRF24_ReadReg simPort nRF24_REG_RF_SETUP r).1 < 256 := ReadWrite_lt _ _ _
  have hym := Nat.mod_eq_of_lt hy
  have hne : nRF24_REG_RF_SETUP ≠ nRF24_REG_STATUS := by decide
  have key : ∀ c, c < 256 → c &&& 0xF9 = 0 → ∀ x i,
      (nRF24_SetTXPower simPort b (nRF24_SetTXPower simPort c r)).dev.regs x i
        = (nRF24_SetTXPower simPort b r).dev.regs x i := by
    intro c hc hcf x i
    have a0 := rf_setup_bytes c (power_field_lt _ hc hcf) hcf _ hy
    rw [hym] at a0
    obtain ⟨a1, -, a3, a4⟩ := a0
    obtain ⟨g1, c1⟩ := sim_SetTXPower_any c r
    obtain ⟨g2, -⟩ := sim_SetTXPower b (nRF24_SetTXPower simPort c r) c1
    obtain ⟨g3, -⟩ := sim_SetTXPower_any b r
    have v1 : (nRF24_SetTXPower simPort c r).dev.regs nRF24_REG_RF_SETUP 0
        = ((nRF24_ReadReg simPort nRF24_REG_RF_SETUP r).1 &&& 0xF9) ||| c := by
      rw [g1, write_same _ _ _ _ hne, a1]
    have d0 := rf_setup_bytes b (power_field_lt _ hb hbfield) hbfield _ hy
    rw [hym] at d0
    obtain ⟨d1, -, -, -⟩ := d0
    obtain ⟨e1, -, -, -⟩ := rf_setup_bytes b (power_field_lt _ hb hbfield) hbfield _ a4
    by_cases h : x = nRF24_REG_RF_SETUP ∧ i = 0
    · obtain ⟨hx, hi⟩ := h
      subst hx hi
      rw [g2, g3, write_same _ _ _ _ hne, write_same _ _ _ _ hne, v1, e1, d1, a3]
    · rw [g2, g3, write_other _ _ _ _ _ _ h, write_other _ _ _ _ _ _ h, g1,
        write_other _ _ _ _ _ _ h]
  exact ⟨key a ha hafield, key b hb hbfield⟩

/-- Witness of C18: the levels 0x06 then 0x02 on the configured simulated
chip left selected by `nRF24_Check`. -/
theorem nRF24_SetTXPower_last_call_wins_witness :
    0x06 < 256 ∧ 0x06 &&& 0xF9 = 0 ∧ 0x02 < 256 ∧ 0x02 &&& 0xF9 = 0 ∧
    (∀ x i, (nRF24_SetTXPower simPort 0x02 (nRF24_SetTXPower simPort 0x06 demoSelected)).dev.regs x i
      = (nRF24_SetTXPower simPort 0x02 demoSelected).dev.regs x i) ∧
    (∀ x i, (nRF24_SetTXPower simPort 0x02 (nRF24_SetTXPower simPort 0x02 demoSelected)).dev.regs x i
      = (nRF24_SetTXPower simPort 0x02 demoSelected).dev.regs x i) :=
  ⟨by decide, by decide, by decide, by decide,
   nRF24_SetTXPower_last_call_wins 0x06 0x02 demoSelected (by decide) (by decide)
     (by decide) (by decide)⟩

/-! ## Presence check on the simulated chip -/

/-- The register file of the simulated chip after `nRF24_Check`: the first
five bytes of the TX-address register hold the pattern, every other cell is
as before. -/
theorem sim_Check_regs (rxbuf : Nat → Nat) (r : Run Chip) (hcsn : r.dev.csn = true) :
    (nRF24_Check simPort rxbuf r).2.dev.regs
      = fun a i => if a = nRF24_REG_TX_ADDR ∧ i < 5 then Check_txbuf i else r.dev.regs a i := by
  obtain ⟨⟨regs, fifo, csn, ce, cmd, idx, w1c, lat, outc⟩, rc, re, tr⟩ := r
  simp only at hcsn
  subst hcsn
  funext a i
  simp [nRF24_Check, nRF24_WriteBuf, WriteBuf_loop, nRF24_ReadBuf, ReadBuf_loop,
    nRF24_ReadWrite, CSN_L, CSN_H, simPort, Chip.spi, Chip.write, nRF24_CMD_WREG,
    nRF24_REG_TX_ADDR, nRF24_CMD_FLUSH_TX, nRF24_REG_STATUS, Check_txbuf]
  by_cases ha : a = 16
  · subst ha
    by_cases hi : i < 5
    · interval_cases i <;> simp
    · have h4 : i ≠ 4 := by omega
      have h3 : i ≠ 3 := by omega
      have h2 : i ≠ 2 := by omega
      have h1 : i ≠ 1 := by omega
      have h0 : i ≠ 0 := by omega
      simp [hi, h4, h3, h2, h1, h0]
  · simp [ha]

set_option maxRecDepth 100000 in
/-- C17, counterexample: on the configured simulated chip whose TX address
1,2,3,4,5 has just been read back with `nRF24_ReadBuf` (chip-select low),
`nRF24_Check` returns 0 and the TX-address register still holds 1,2,3,4,5,
not the pattern. -/
theorem nRF24_Check_on_selected_chip :
    (demoAfterRead.dev.csn, (nRF24_Check simPort (fun _ => 0) demoAfterRead).1,
      (List.range 5).map
        ((nRF24_Check simPort (fun _ => 0) demoAfterRead).2.dev.regs nRF24_REG_TX_ADDR))
      = (false, 0, [1, 2, 3, 4, 5]) := by
  decide

/-- C17, amended: on the simulated chip with chip-select high at the start,
for every initial register state and every initial content of the local receive buffer, after
`nRF24_Check` the first five bytes of the TX-address register are
'n','R','F','2','4' (110, 82, 70, 50, 52), whatever they were before, and
every other register cell, in particular the pipe-0 RX-address register, is
unchanged. -/
theorem nRF24_Check_overwrites_TX_ADDR (rxbuf : Nat → Nat) (r : Run Chip)
    (hcsn : r.dev.csn = true) :
    (∀ i, i < 5 →
      (nRF24_Check simPort rxbuf r).2.dev.regs nRF24_REG_TX_ADDR i = Check_txbuf i) ∧
    [Check_txbuf 0, Check_txbuf 1, Check_txbuf 2, Check_txbuf 3, Check_txbuf 4]
      = [110, 82, 70, 50, 52] ∧
    (∀ a i, ¬ (a = nRF24_REG_TX_ADDR ∧ i < 5) →
      (nRF24_Check simPort rxbuf r).2.dev.regs a i = r.dev.regs a i) ∧
    (∀ i, (nRF24_Check simPort rxbuf r).2.dev.regs nRF24_REG_RX_ADDR_P0 i
      = r.dev.regs nRF24_REG_RX_ADDR_P0 i) := by
  have g := sim_Check_regs rxbuf r hcsn
  refine ⟨?_, by decide, ?_, ?_⟩
  · intro i hi
    rw [g]
    simp [hi]
  · intro a i h
    rw [g]
    simp only [if_neg h]
  · intro i
    rw [g]
    have h : ¬ (nRF24_REG_RX_ADDR_P0 = nRF24_REG_TX_ADDR ∧ i < 5) := by
      rintro ⟨e, -⟩
      exact absurd e (by decide)
    simp only [if_neg h]

/-- Witness of C17 (amended): the configured simulated chip, whose TX and
pipe-0 RX addresses are 1,2,3,4,5. -/
theorem nRF24_Check_overwrites_TX_ADDR_witness :
    demoConfigured.dev.csn = true ∧
    (∀ i, i < 5 →
      (nRF24_Check simPort (fun _ => 0) demoConfigured).2.dev.regs nRF24_REG_TX_ADDR i = Check_txbuf i) ∧
    [Check_txbuf 0, Check_txbuf 1, Check_txbuf 2, Check_txbuf 3, Check_txbuf 4]
      = [110, 82, 70, 50, 52] ∧
    (∀ a i, ¬ (a = nRF24_REG_TX_ADDR ∧ i < 5) →
      (nRF24_Check simPort (fun _ => 0) demoConfigured).2.dev.regs a i = demoConfigured.dev.regs a i) ∧
    (∀ i, (nRF24_Check simPort (fun _ => 0) demoConfigured).2.dev.regs nRF24_REG_RX_ADDR_P0 i
      = demoConfigured.dev.regs nRF24_REG_RX_ADDR_P0 i) :=
  ⟨rfl, nRF24_Check_overwrites_TX_ADDR (fun _ => 0) demoConfigured rfl⟩

end NRF24
